import Mathlib

/-!
Verification of the patina MQTT v5 server against its specification.

This file shallowly embeds the parts of the Rust source that the claims
concern: the MQTT codec (fixed header, variable header, properties,
payload, variable-byte integers), the registries (ClientHandler,
SessionHandler, the topic actor), and the per-packet handlers of the
dispatcher and of the Tx connection stage.

Conventions of the embedding:
  - machine integers are Nat; bytes produced by the encoder are kept
    below 256 by explicit reductions exactly where the source casts;
  - Rust Result is Except, Rust Option is Option;
  - a Rust panic (unwrap, expect, arithmetic underflow in debug) is the
    dedicated result constructor Res.panicked;
  - DashMap and HashMap are association lists with first-match lookup
    and replace-on-insert;
  - HashSet of strings is a duplicate-free list, insert adds at the end
    when the element is absent;
  - strings travelling through the codec are their UTF-8 byte lists.
-/

namespace Patina

/-! ## Bit-level primitives shared by the codec model -/

/-- Fixed-width big-endian bit representation of a natural number.
Width w keeps exactly the low w bits, most significant first. -/
def natToBits : Nat → Nat → List Bool
  | 0, _ => []
  | w + 1, x => natToBits w (x / 2) ++ [x % 2 == 1]

/-- Value of a bit list read most-significant-bit first, as the
bitreader crate accumulates it. -/
def bitsToNat (l : List Bool) : Nat :=
  l.foldl (fun acc b => 2 * acc + (if b then 1 else 0)) 0

/-- A byte list as a bit stream, each byte contributing its 8 bits. -/
def bytesToBits (bs : List Nat) : List Bool :=
  bs.flatMap (fun b => natToBits 8 b)

theorem natToBits_length (w x : Nat) : (natToBits w x).length = w := by
  induction w generalizing x with
  | zero => rfl
  | succ w ih => simp [natToBits, ih]

theorem bitsToNat_foldl (l : List Bool) (acc : Nat) :
    l.foldl (fun a b => 2 * a + (if b then 1 else 0)) acc
      = acc * 2 ^ l.length + bitsToNat l := by
  induction l generalizing acc with
  | nil => simp [bitsToNat]
  | cons b t ih =>
      have hdef : bitsToNat (b :: t)
          = (if b then 1 else 0) * 2 ^ t.length + bitsToNat t := by
        show t.foldl _ (2 * 0 + (if b then 1 else 0)) = _
        rw [ih]
        ring_nf
      simp only [List.foldl_cons, List.length_cons]
      rw [ih, hdef, pow_succ]
      ring

theorem bitsToNat_append (xs ys : List Bool) :
    bitsToNat (xs ++ ys) = bitsToNat xs * 2 ^ ys.length + bitsToNat ys := by
  show (xs ++ ys).foldl _ 0 = _
  rw [List.foldl_append]
  exact bitsToNat_foldl ys (xs.foldl _ 0)

theorem bitsToNat_natToBits (w x : Nat) : bitsToNat (natToBits w x) = x % 2 ^ w := by
  induction w generalizing x with
  | zero => simp [natToBits, bitsToNat, Nat.mod_one]
  | succ w ih =>
      rw [show natToBits (w + 1) x = natToBits w (x / 2) ++ [x % 2 == 1] from rfl]
      rw [bitsToNat_append, ih]
      have hb : bitsToNat [x % 2 == 1] = x % 2 := by
        rcases Nat.mod_two_eq_zero_or_one x with h | h <;> simp [bitsToNat, h]
      have hm : x % 2 ^ (w + 1) = x % 2 + 2 * (x / 2 % 2 ^ w) := by
        rw [pow_succ, mul_comm (2 ^ w) 2, Nat.mod_mul]
      simp only [List.length_cons, List.length_nil, hb, hm, pow_one]
      ring

/-! ## Data model: enums of the model crate -/

/-- model/qos_level.rs QoSLevel. -/
inductive QoSLevel where
  | AtMostOnce
  | AtLeastOnce
  | ExactlyOnce
deriving DecidableEq, Repr

/-- QoSLevel::from_u8. -/
def QoSLevel.from_u8 (value : Nat) : Option QoSLevel :=
  match value with
  | 0 => some .AtMostOnce
  | 1 => some .AtLeastOnce
  | 2 => some .ExactlyOnce
  | _ => none

/-- QoSLevel::to_bool, the (msb, lsb) pair of the two qos bits. -/
def QoSLevel.to_bool : QoSLevel → Bool × Bool
  | .AtMostOnce => (false, false)
  | .AtLeastOnce => (false, true)
  | .ExactlyOnce => (true, false)

/-- model/fixed_header.rs ControlPacketType. -/
inductive ControlPacketType where
  | RESERVED
  | CONNECT
  | CONNACK
  | PUBLISH
  | PUBACK
  | PUBREC
  | PUBREL
  | PUBCOMP
  | SUBSCRIBE
  | SUBACK
  | UNSUBSCRIBE
  | UNSUBACK
  | PINGREQ
  | PINGRESP
  | DISCONNECT
  | AUTH
deriving DecidableEq, Repr

/-- ControlPacketType::as_u8 (type nibble already shifted to the high
four bits of the first byte). -/
def ControlPacketType.as_u8 : ControlPacketType → Nat
  | .RESERVED => 0x00
  | .CONNECT => 0x10
  | .CONNACK => 0x20
  | .PUBLISH => 0x30
  | .PUBACK => 0x40
  | .PUBREC => 0x50
  | .PUBREL => 0x60
  | .PUBCOMP => 0x70
  | .SUBSCRIBE => 0x80
  | .SUBACK => 0x90
  | .UNSUBSCRIBE => 0xA0
  | .UNSUBACK => 0xB0
  | .PINGREQ => 0xC0
  | .PINGRESP => 0xD0
  | .DISCONNECT => 0xE0
  | .AUTH => 0xF0

/-- ControlPacketType::from_u8 over the 4-bit type value. -/
def ControlPacketType.from_u8 (value : Nat) : Option ControlPacketType :=
  match value with
  | 0 => some .RESERVED
  | 1 => some .CONNECT
  | 2 => some .CONNACK
  | 3 => some .PUBLISH
  | 4 => some .PUBACK
  | 5 => some .PUBREC
  | 6 => some .PUBREL
  | 7 => some .PUBCOMP
  | 8 => some .SUBSCRIBE
  | 9 => some .SUBACK
  | 10 => some .UNSUBSCRIBE
  | 11 => some .UNSUBACK
  | 12 => some .PINGREQ
  | 13 => some .PINGRESP
  | 14 => some .DISCONNECT
  | 15 => some .AUTH
  | _ => none

/-- model/reason_code.rs ReasonCode. -/
inductive ReasonCode where
  | Success
  | NormalDisconnection
  | GrantedQoS0
  | GrantedQoS1
  | GrantedQoS2
  | DisconnectWithWillMessage
  | NoMatchingSubscribers
  | NoSubscriptionExisted
  | ContinueAuthentication
  | ReAuthenticate
  | UnspecifiedError
  | MalformedPacket
  | ProtocolError
  | ImplementationSpecificError
  | UnsupportedProtocolVersion
  | ClientIdentifierNotValid
  | BadUsernameOrPassword
  | NotAuthorized
  | ServerUnavailable
  | ServerBusy
  | Banned
  | ServerShuttingDown
  | BadAuthenticationMethod
  | KeepAliveTimeout
  | SessionTakenOver
  | TopicFilterInvalid
  | TopicNameInvalid
  | PacketIdentifierInUse
  | PacketIdentifierNotFound
  | ReceiveMaximumExceeded
  | TopicAliasInvalid
  | PacketTooLarge
  | MessageRateTooHigh
  | QuotaExceeded
  | AdministrativeAction
  | PayloadFormatInvalid
  | RetainNotSupported
  | QoSNotSupported
  | UseAnotherServer
  | ServerMoved
  | SharedSubscriptionsNotSupported
  | ConnectionRateExceeded
  | MaximumConnectTime
  | SubscriptionIdentifiersNotSupported
  | WildcardSubscriptionsNotSupported
deriving DecidableEq, Repr

/-- ReasonCode::as_u8. -/
def ReasonCode.as_u8 : ReasonCode → Nat
  | .Success => 0x00
  | .NormalDisconnection => 0x00
  | .GrantedQoS0 => 0x00
  | .GrantedQoS1 => 0x01
  | .GrantedQoS2 => 0x02
  | .DisconnectWithWillMessage => 0x04
  | .NoMatchingSubscribers => 0x10
  | .NoSubscriptionExisted => 0x11
  | .ContinueAuthentication => 0x18
  | .ReAuthenticate => 0x19
  | .UnspecifiedError => 0x80
  | .MalformedPacket => 0x81
  | .ProtocolError => 0x82
  | .ImplementationSpecificError => 0x83
  | .UnsupportedProtocolVersion => 0x84
  | .ClientIdentifierNotValid => 0x85
  | .BadUsernameOrPassword => 0x86
  | .NotAuthorized => 0x87
  | .ServerUnavailable => 0x88
  | .ServerBusy => 0x89
  | .Banned => 0x8A
  | .ServerShuttingDown => 0x8B
  | .BadAuthenticationMethod => 0x8C
  | .KeepAliveTimeout => 0x8D
  | .SessionTakenOver => 0x8E
  | .TopicFilterInvalid => 0x8F
  | .TopicNameInvalid => 0x90
  | .PacketIdentifierInUse => 0x91
  | .PacketIdentifierNotFound => 0x92
  | .ReceiveMaximumExceeded => 0x93
  | .TopicAliasInvalid => 0x94
  | .PacketTooLarge => 0x95
  | .MessageRateTooHigh => 0x96
  | .QuotaExceeded => 0x97
  | .AdministrativeAction => 0x98
  | .PayloadFormatInvalid => 0x99
  | .RetainNotSupported => 0x9A
  | .QoSNotSupported => 0x9B
  | .UseAnotherServer => 0x9C
  | .ServerMoved => 0x9D
  | .SharedSubscriptionsNotSupported => 0x9E
  | .ConnectionRateExceeded => 0x9F
  | .MaximumConnectTime => 0xA0
  | .SubscriptionIdentifiersNotSupported => 0xA1
  | .WildcardSubscriptionsNotSupported => 0xA2

/-- ReasonCode::from_u8. The source has three match arms for 0x00
(Success, NormalDisconnection, GrantedQoS0); Rust takes the first, so
0 maps to Success. -/
def ReasonCode.from_u8 (value : Nat) : Option ReasonCode :=
  match value with
  | 0x00 => some .Success
  | 0x01 => some .GrantedQoS1
  | 0x02 => some .GrantedQoS2
  | 0x04 => some .DisconnectWithWillMessage
  | 0x10 => some .NoMatchingSubscribers
  | 0x11 => some .NoSubscriptionExisted
  | 0x18 => some .ContinueAuthentication
  | 0x19 => some .ReAuthenticate
  | 0x80 => some .UnspecifiedError
  | 0x81 => some .MalformedPacket
  | 0x82 => some .ProtocolError
  | 0x83 => some .ImplementationSpecificError
  | 0x84 => some .UnsupportedProtocolVersion
  | 0x85 => some .ClientIdentifierNotValid
  | 0x86 => some .BadUsernameOrPassword
  | 0x87 => some .NotAuthorized
  | 0x88 => some .ServerUnavailable
  | 0x89 => some .ServerBusy
  | 0x8A => some .Banned
  | 0x8B => some .ServerShuttingDown
  | 0x8C => some .BadAuthenticationMethod
  | 0x8D => some .KeepAliveTimeout
  | 0x8E => some .SessionTakenOver
  | 0x8F => some .TopicFilterInvalid
  | 0x90 => some .TopicNameInvalid
  | 0x91 => some .PacketIdentifierInUse
  | 0x92 => some .PacketIdentifierNotFound
  | 0x93 => some .ReceiveMaximumExceeded
  | 0x94 => some .TopicAliasInvalid
  | 0x95 => some .PacketTooLarge
  | 0x96 => some .MessageRateTooHigh
  | 0x97 => some .QuotaExceeded
  | 0x98 => some .AdministrativeAction
  | 0x99 => some .PayloadFormatInvalid
  | 0x9A => some .RetainNotSupported
  | 0x9B => some .QoSNotSupported
  | 0x9C => some .UseAnotherServer
  | 0x9D => some .ServerMoved
  | 0x9E => some .SharedSubscriptionsNotSupported
  | 0x9F => some .ConnectionRateExceeded
  | 0xA0 => some .MaximumConnectTime
  | 0xA1 => some .SubscriptionIdentifiersNotSupported
  | 0xA2 => some .WildcardSubscriptionsNotSupported
  | _ => none

/-- model/topic.rs RetainHandling. -/
inductive RetainHandling where
  | SendRetainedMessagesOnSubscribe
  | SendRetainedMessagesOnNewSubscribe
  | DontSendRetainedMessages
deriving DecidableEq, Repr

/-- RetainHandling::from_u8. -/
def RetainHandling.from_u8 (value : Nat) : Option RetainHandling :=
  match value with
  | 0 => some .SendRetainedMessagesOnSubscribe
  | 1 => some .SendRetainedMessagesOnNewSubscribe
  | 2 => some .DontSendRetainedMessages
  | _ => none

/-- A Rust String travelling through the codec, as its UTF-8 bytes. -/
abbrev MqttStr := List Nat

/-- model/variable_header.rs Property. -/
inductive Property where
  | PayloadFormatIndicator (v : Nat)
  | MessageExpiryInterval (v : Nat)
  | ContentType (v : MqttStr)
  | ResponseTopic (v : MqttStr)
  | CorrelationData (v : List Nat)
  | SubscriptionIdentifier (v : Nat)
  | SessionExpiryInterval (v : Nat)
  | AssignedClientIdentifier (v : MqttStr)
  | ServerKeepAlive (v : Nat)
  | AuthenticationMethod (v : MqttStr)
  | AuthenticationData (v : List Nat)
  | RequestProblemInformation (v : Nat)
  | WillDelayInterval (v : Nat)
  | RequestResponseInformation (v : Nat)
  | ResponseInformation (v : MqttStr)
  | ServerReference (v : MqttStr)
  | ReasonString (v : MqttStr)
  | ReceiveMaximum (v : Nat)
  | TopicAliasMaximum (v : Nat)
  | TopicAlias (v : Nat)
  | MaximumQoS (v : Nat)
  | RetainAvailable (v : Nat)
  | UserProperty (k v : MqttStr)
  | MaximumPacketSize (v : Nat)
  | WildcardSubscriptionAvailable (v : Nat)
  | SubscriptionIdentifierAvailable (v : Nat)
  | SharedSubscriptionAvailable (v : Nat)
deriving DecidableEq, Repr

/-- model/variable_header.rs ConnectFlags. -/
structure ConnectFlags where
  username_flag : Bool
  password_flag : Bool
  will_retain_flag : Bool
  will_qos : QoSLevel
  will_flag : Bool
  clean_start_flag : Bool
  reserved_flag : Bool
deriving DecidableEq, Repr

/-- model/variable_header.rs ConnectAcknowledgeFlags. -/
structure ConnectAcknowledgeFlags where
  session_present : Bool
deriving DecidableEq, Repr

/-- model/variable_header.rs VariableHeader: the shape-shifting record
with one optional field per role. -/
structure VariableHeader where
  protocol_name : Option MqttStr
  protocol_version : Option Nat
  connect_flags : Option ConnectFlags
  keep_alive : Option Nat
  connect_acknowledge_flags : Option ConnectAcknowledgeFlags
  reason_code : Option ReasonCode
  properties : List Property
  packet_identifier : Option Nat
  topic_name : Option MqttStr
deriving DecidableEq, Repr

/-- VariableHeader::from_connect. -/
def VariableHeader.from_connect (protocol_name : Option MqttStr)
    (protocol_version : Option Nat) (connect_flags : Option ConnectFlags)
    (keep_alive : Option Nat) (properties : List Property) : VariableHeader :=
  ⟨protocol_name, protocol_version, connect_flags, keep_alive, none, none,
    properties, none, none⟩

/-- VariableHeader::from_disconnect. -/
def VariableHeader.from_disconnect (reason_code : ReasonCode)
    (properties : List Property) : VariableHeader :=
  ⟨none, none, none, none, none, some reason_code, properties, none, none⟩

/-- VariableHeader::from_connack. -/
def VariableHeader.from_connack (flags : ConnectAcknowledgeFlags)
    (connect_reason_code : ReasonCode) (properties : List Property) :
    VariableHeader :=
  ⟨none, none, none, none, some flags, some connect_reason_code, properties,
    none, none⟩

/-- VariableHeader::from_sub_unsub. -/
def VariableHeader.from_sub_unsub (packet_identifier : Option Nat)
    (properties : List Property) : VariableHeader :=
  ⟨none, none, none, none, none, none, properties, packet_identifier, none⟩

/-- VariableHeader::from_suback (same field population as from_sub_unsub). -/
def VariableHeader.from_suback (packet_identifier : Option Nat)
    (properties : List Property) : VariableHeader :=
  ⟨none, none, none, none, none, none, properties, packet_identifier, none⟩

/-- VariableHeader::from_publish. -/
def VariableHeader.from_publish (packet_identifier : Option Nat)
    (topic_name : Option MqttStr) (properties : List Property) :
    VariableHeader :=
  ⟨none, none, none, none, none, none, properties, packet_identifier,
    topic_name⟩

/-- VariableHeader::from_pub_ack_rel_comp. -/
def VariableHeader.from_pub_ack_rel_comp (packet_identifier : Option Nat)
    (reason_code : Option ReasonCode) (properties : List Property) :
    VariableHeader :=
  ⟨none, none, none, none, none, reason_code, properties, packet_identifier,
    none⟩

/-- model/topic.rs TopicFilter. -/
structure TopicFilter where
  topic_filter : MqttStr
  maximum_qos : QoSLevel
  no_local : Bool
  retain_as_published : Bool
  retain_handling : RetainHandling
  reserved_bits : List Bool
deriving DecidableEq, Repr

/-- TopicFilter::from_subscribe. -/
def TopicFilter.from_subscribe (topic_filter : MqttStr)
    (maximum_qos : QoSLevel) (no_local retain_as_published : Bool)
    (retain_handling : RetainHandling) (reserved_bits : List Bool) :
    TopicFilter :=
  ⟨topic_filter, maximum_qos, no_local, retain_as_published, retain_handling,
    reserved_bits⟩

/-- TopicFilter::from_unsubscribe. -/
def TopicFilter.from_unsubscribe (topic_filter : MqttStr) : TopicFilter :=
  ⟨topic_filter, .ExactlyOnce, true, false, .DontSendRetainedMessages, []⟩

/-- model/payload.rs Payload. -/
structure Payload where
  client_id : Option MqttStr
  will_properties : Option (List Property)
  will_topic : Option MqttStr
  will_payload : Option (List Nat)
  username : Option MqttStr
  password : Option MqttStr
  topic_filters : Option (List TopicFilter)
  reason_codes : Option (List ReasonCode)
  data : Option (List Nat)
deriving DecidableEq, Repr

/-- Payload::from_connect. -/
def Payload.from_connect (client_id : Option MqttStr)
    (will_properties : Option (List Property)) (will_topic : Option MqttStr)
    (will_payload : Option (List Nat)) (username password : Option MqttStr) :
    Payload :=
  ⟨client_id, will_properties, will_topic, will_payload, username, password,
    none, none, none⟩

/-- Payload::from_sub_unsub. -/
def Payload.from_sub_unsub (topic_filters : List TopicFilter) : Payload :=
  ⟨none, none, none, none, none, none, some topic_filters, none, none⟩

/-- Payload::from_sub_unsub_ack. -/
def Payload.from_sub_unsub_ack (reason_codes : Option (List ReasonCode)) :
    Payload :=
  ⟨none, none, none, none, none, none, none, reason_codes, none⟩

/-- Payload::from_publish. -/
def Payload.from_publish (data : Option (List Nat)) : Payload :=
  ⟨none, none, none, none, none, none, none, none, data⟩

/-- model/fixed_header.rs FixedHeader. -/
structure FixedHeader where
  packet_type : ControlPacketType
  control_flags : Option (List Bool)
  remaining_length : Nat
  dup_flag : Option Bool
  qos_level : Option QoSLevel
  retain : Option Bool
deriving DecidableEq, Repr

/-- FixedHeader::new. -/
def FixedHeader.new (packet_type : ControlPacketType)
    (control_flags : List Bool) (remaining_length : Nat) : FixedHeader :=
  ⟨packet_type, some control_flags, remaining_length, none, none, none⟩

/-- FixedHeader::from_publish. -/
def FixedHeader.from_publish (dup_flag : Bool) (qos_level : QoSLevel)
    (retain : Bool) (remaining_length : Nat) : FixedHeader :=
  ⟨.PUBLISH, none, remaining_length, some dup_flag, some qos_level,
    some retain⟩

/-- model/control_packet.rs ControlPacket. -/
structure ControlPacket where
  fixed_header : FixedHeader
  variable_header : Option VariableHeader
  payload : Option Payload
deriving DecidableEq, Repr

/-- ControlPacket::new. -/
def ControlPacket.new (fixed_header : FixedHeader)
    (variable_header : Option VariableHeader) (payload : Option Payload) :
    ControlPacket :=
  ⟨fixed_header, variable_header, payload⟩

/-- ControlPacket::connect. The remaining_length of every constructor
is a placeholder; the encoder recomputes it. -/
def ControlPacket.connect (connect_flags : ConnectFlags)
    (keep_alive : Option Nat) (properties : List Property)
    (client_id : Option MqttStr) (will_properties : Option (List Property))
    (will_topic : Option MqttStr) (will_payload : Option (List Nat))
    (username password : Option MqttStr) : ControlPacket :=
  ControlPacket.new
    (FixedHeader.new .CONNECT [false, false, false, false] 0)
    (some (VariableHeader.from_connect (some [77, 81, 84, 84]) (some 5)
      (some connect_flags) keep_alive properties))
    (some (Payload.from_connect client_id will_properties will_topic
      will_payload username password))

/-- ControlPacket::connack. -/
def ControlPacket.connack (session_present : Bool) : ControlPacket :=
  ControlPacket.new
    (FixedHeader.new .CONNACK [false, false, false, false] 0)
    (some (VariableHeader.from_connack ⟨session_present⟩ .Success []))
    none

/-- ControlPacket::subscribe. -/
def ControlPacket.subscribe (packet_identifier : Option Nat)
    (topic_filter : MqttStr) (maximum_qos : QoSLevel) : ControlPacket :=
  ControlPacket.new
    (FixedHeader.new .SUBSCRIBE [false, false, false, false] 0)
    (some (VariableHeader.from_sub_unsub packet_identifier []))
    (some (Payload.from_sub_unsub
      [TopicFilter.from_subscribe topic_filter maximum_qos false false
        .DontSendRetainedMessages []]))

/-- ControlPacket::suback. -/
def ControlPacket.suback (packet_identifier : Option Nat)
    (reason_codes : List ReasonCode) : ControlPacket :=
  ControlPacket.new
    (FixedHeader.new .SUBACK [false, false, false, false] 0)
    (some (VariableHeader.from_suback packet_identifier []))
    (some (Payload.from_sub_unsub_ack (some reason_codes)))

/-- ControlPacket::unsuback. -/
def ControlPacket.unsuback (packet_identifier : Option Nat)
    (reason_codes : List ReasonCode) : ControlPacket :=
  ControlPacket.new
    (FixedHeader.new .UNSUBACK [false, false, false, false] 0)
    (some (VariableHeader.from_suback packet_identifier []))
    (some (Payload.from_sub_unsub_ack (some reason_codes)))

/-- ControlPacket::publish; the source passes u64::MAX as the
placeholder remaining_length. -/
def ControlPacket.publish (packet_identifier : Option Nat)
    (topic_name : Option MqttStr) (dup_flag : Bool) (qos_level : QoSLevel)
    (retain : Bool) : ControlPacket :=
  ControlPacket.new
    (FixedHeader.from_publish dup_flag qos_level retain (2 ^ 64 - 1))
    (some (VariableHeader.from_publish packet_identifier topic_name []))
    none

/-- ControlPacket::puback. -/
def ControlPacket.puback (packet_identifier : Option Nat) : ControlPacket :=
  ControlPacket.new
    (FixedHeader.new .PUBACK [false, false, false, false] 0)
    (some (VariableHeader.from_pub_ack_rel_comp packet_identifier
      (some .Success) []))
    none

/-- ControlPacket::pubrec. -/
def ControlPacket.pubrec (packet_identifier : Option Nat) : ControlPacket :=
  ControlPacket.new
    (FixedHeader.new .PUBREC [false, false, false, false] 0)
    (some (VariableHeader.from_pub_ack_rel_comp packet_identifier
      (some .Success) []))
    none

/-- ControlPacket::pubrel; note the constructor passes the flag vector
[false, true, false, false]. -/
def ControlPacket.pubrel (packet_identifier : Option Nat) : ControlPacket :=
  ControlPacket.new
    (FixedHeader.new .PUBREL [false, true, false, false] 0)
    (some (VariableHeader.from_pub_ack_rel_comp packet_identifier
      (some .Success) []))
    none

/-- ControlPacket::pubcomp. -/
def ControlPacket.pubcomp (packet_identifier : Option Nat) : ControlPacket :=
  ControlPacket.new
    (FixedHeader.new .PUBCOMP [false, false, false, false] 0)
    (some (VariableHeader.from_pub_ack_rel_comp packet_identifier
      (some .Success) []))
    none

/-- ControlPacket::pingresp. -/
def ControlPacket.pingresp : ControlPacket :=
  ControlPacket.new
    (FixedHeader.new .PINGRESP [false, false, false, false] 0) none none

/-- ControlPacket::disconnect. -/
def ControlPacket.disconnect (reason_code : ReasonCode) : ControlPacket :=
  ControlPacket.new
    (FixedHeader.new .DISCONNECT [false, false, false, false] 0)
    (some (VariableHeader.from_disconnect reason_code []))
    none

/-! ## Association-list model of DashMap / HashMap

One value per key; lookup finds the first binding, insert replaces. -/

/-- First binding for a key, as DashMap::get. -/
def mapLookup [DecidableEq κ] (k : κ) : List (κ × ν) → Option ν
  | [] => none
  | (k2, v) :: rest => if k2 = k then some v else mapLookup k rest

/-- Drop every binding of a key, as DashMap::remove does for the single
binding the map keeps. -/
def mapErase [DecidableEq κ] (k : κ) (m : List (κ × ν)) : List (κ × ν) :=
  m.filter (fun p => p.1 ≠ k)

/-- Replace-on-insert, as DashMap::insert; the previous value is what
mapLookup returned beforehand. -/
def mapInsert [DecidableEq κ] (k : κ) (v : ν) (m : List (κ × ν)) :
    List (κ × ν) :=
  (k, v) :: mapErase k m

/-- DashMap::contains_key. -/
def mapContains [DecidableEq κ] (k : κ) (m : List (κ × ν)) : Bool :=
  (mapLookup k m).isSome

theorem mapLookup_insert [DecidableEq κ] (k : κ) (v : ν)
    (m : List (κ × ν)) : mapLookup k (mapInsert k v m) = some v := by
  simp [mapInsert, mapLookup]

theorem mapLookup_erase [DecidableEq κ] (k : κ) (m : List (κ × ν)) :
    mapLookup k (mapErase k m) = none := by
  induction m with
  | nil => rfl
  | cons p rest ih =>
      by_cases h : p.1 = k
      · simpa [mapErase, h] using ih
      · simpa [mapErase, mapLookup, h] using ih

/-! ## ClientHandler (session/client_handler.rs)

Two DashMaps socket2id and id2socket. Sockets are identifiers drawn
from Nat; client ids are strings. -/

abbrev SocketAddr := Nat

abbrev ClientId := String

/-- The two maps of session/client_handler.rs ClientHandler. -/
structure ClientHandler where
  socket2id : List (SocketAddr × ClientId)
  id2socket : List (ClientId × SocketAddr)
deriving DecidableEq, Repr

/-- ClientHandler::default: both maps empty. -/
def ClientHandler.default : ClientHandler := ⟨[], []⟩

/-- ClientHandler::get_client_id. -/
def ClientHandler.get_client_id (self : ClientHandler)
    (socket : SocketAddr) : Except String ClientId :=
  match mapLookup socket self.socket2id with
  | none => .error ("Cannot get any client_id for socket " ++ toString socket)
  | some client_id => .ok client_id

/-- ClientHandler::get_socket. -/
def ClientHandler.get_socket (self : ClientHandler) (client_id : ClientId) :
    Except String SocketAddr :=
  match mapLookup client_id self.id2socket with
  | none => .error ("Cannot get any socket for client_id " ++ client_id)
  | some socket => .ok socket

/-- ClientHandler::register: inserts both directions and returns the
previous socket bound to this client_id, when one existed. -/
def ClientHandler.register (self : ClientHandler) (socket : SocketAddr)
    (client_id : ClientId) : ClientHandler × Option SocketAddr :=
  let socket2id := mapInsert socket client_id self.socket2id
  let previous_socket := mapLookup client_id self.id2socket
  let id2socket := mapInsert client_id socket self.id2socket
  (⟨socket2id, id2socket⟩, previous_socket)

/-- ClientHandler::unregister: removes both directions. -/
def ClientHandler.unregister (self : ClientHandler) (socket : SocketAddr)
    (client_id : ClientId) : ClientHandler :=
  ⟨mapErase socket self.socket2id, mapErase client_id self.id2socket⟩

/-- ClientHandler::unregister_by_socket: drops the id2socket binding of
the client found via get_client_id (when registered), then removes and
returns the socket2id binding. -/
def ClientHandler.unregister_by_socket (self : ClientHandler)
    (socket : SocketAddr) : ClientHandler × Option ClientId :=
  let id2socket :=
    match self.get_client_id socket with
    | .ok client_id => mapErase client_id self.id2socket
    | .error _ => self.id2socket
  let removed := mapLookup socket self.socket2id
  (⟨mapErase socket self.socket2id, id2socket⟩, removed)

/-! ## SessionHandler (session/session_handler.rs) -/

/-- The six DashMaps of SessionHandler; packet identifiers are u16. -/
structure SessionHandler where
  client2pub_qos0_packets : List (ClientId × List ControlPacket)
  client2pub_qos1_packets : List ((ClientId × Nat) × ControlPacket)
  client2pub_qos2_packets : List ((ClientId × Nat) × ControlPacket)
  client2puback : List ((ClientId × Nat) × Bool)
  client2pubrel : List ((ClientId × Nat) × Bool)
  client2pubrec : List ((ClientId × Nat) × Bool)
deriving Repr

/-- SessionHandler::new: all maps empty. -/
def SessionHandler.new : SessionHandler := ⟨[], [], [], [], [], []⟩

/-- packet.variable_header().packet_identifier(): both unwraps panic on
a missing field; none models the panic. -/
def ControlPacket.vh_packet_identifier (p : ControlPacket) : Option Nat :=
  match p.variable_header with
  | none => none
  | some vh => vh.packet_identifier

/-- SessionHandler::register_puback. The insert of true happens only
when the key is already present; none models the source panicking on a
packet without a packet identifier. -/
def SessionHandler.register_puback (self : SessionHandler)
    (client_id : ClientId) (packet : ControlPacket) : Option SessionHandler :=
  match packet.vh_packet_identifier with
  | none => none
  | some packet_id =>
      if mapContains (client_id, packet_id) self.client2puback then
        some { self with
          client2puback := mapInsert (client_id, packet_id) true self.client2puback }
      else
        some self

/-- SessionHandler::register_pubrel (same guarded insert). -/
def SessionHandler.register_pubrel (self : SessionHandler)
    (client_id : ClientId) (packet : ControlPacket) : Option SessionHandler :=
  match packet.vh_packet_identifier with
  | none => none
  | some packet_id =>
      if mapContains (client_id, packet_id) self.client2pubrel then
        some { self with
          client2pubrel := mapInsert (client_id, packet_id) true self.client2pubrel }
      else
        some self

/-- SessionHandler::register_pubrec (same guarded insert). -/
def SessionHandler.register_pubrec (self : SessionHandler)
    (client_id : ClientId) (packet : ControlPacket) : Option SessionHandler :=
  match packet.vh_packet_identifier with
  | none => none
  | some packet_id =>
      if mapContains (client_id, packet_id) self.client2pubrec then
        some { self with
          client2pubrec := mapInsert (client_id, packet_id) true self.client2pubrec }
      else
        some self

/-- SessionHandler::is_puback_complete. -/
def SessionHandler.is_puback_complete (self : SessionHandler)
    (client_id : ClientId) (packet : ControlPacket) : Option Bool :=
  match packet.vh_packet_identifier with
  | none => none
  | some packet_id =>
      match mapLookup (client_id, packet_id) self.client2puback with
      | none => some false
      | some result => some result

/-- SessionHandler::is_pubrel_complete. -/
def SessionHandler.is_pubrel_complete (self : SessionHandler)
    (client_id : ClientId) (packet : ControlPacket) : Option Bool :=
  match packet.vh_packet_identifier with
  | none => none
  | some packet_id =>
      match mapLookup (client_id, packet_id) self.client2pubrel with
      | none => some false
      | some result => some result

/-- SessionHandler::is_pubrec_complete. -/
def SessionHandler.is_pubrec_complete (self : SessionHandler)
    (client_id : ClientId) (packet : ControlPacket) : Option Bool :=
  match packet.vh_packet_identifier with
  | none => none
  | some packet_id =>
      match mapLookup (client_id, packet_id) self.client2pubrec with
      | none => some false
      | some result => some result

/-! ## Topic registry (topic/topic_handler.rs)

The actor owns a HashMap from topic filter to HashSet of client ids.
The HashSet is modelled as a duplicate-free list: insert appends when
absent. -/

abbrev TopicMap := List (String × List ClientId)

/-- HashSet::insert on the subscriber set. -/
def hashsetInsert (client_id : ClientId) (s : List ClientId) :
    List ClientId :=
  if client_id ∈ s then s else s ++ [client_id]

/-- TopicCommand::Subscribe branch of TopicHandler::handle_topics. -/
def TopicHandler.subscribe_cmd (client_id : ClientId) (topic_filter : String)
    (m : TopicMap) : TopicMap :=
  match mapContains topic_filter m with
  | true =>
      let subscribers := (mapLookup topic_filter m).getD []
      mapInsert topic_filter (hashsetInsert client_id subscribers) m
  | false =>
      mapInsert topic_filter (hashsetInsert client_id []) m

/-- TopicCommand::Unsubscribe branch: remove the set, retain the other
clients, insert it back. -/
def TopicHandler.unsubscribe_cmd (client_id : ClientId)
    (topic_filter : String) (m : TopicMap) : TopicMap :=
  match mapLookup topic_filter m with
  | some subscribers =>
      mapInsert topic_filter (subscribers.filter (fun t => t ≠ client_id))
        (mapErase topic_filter m)
  | none => m

/-- TopicCommand::UnsubscribeAll branch: retain the other clients in
every set. -/
def TopicHandler.unsubscribe_all_cmd (client_id : ClientId) (m : TopicMap) :
    TopicMap :=
  m.map (fun p => (p.1, p.2.filter (fun s => s ≠ client_id)))

/-- TopicCommand::FindSubscribers branch: the members of the exact
entry, or the empty list. -/
def TopicHandler.find_subscribers_cmd (topic_filter : String) (m : TopicMap) :
    List ClientId :=
  match mapLookup topic_filter m with
  | some subscribers => subscribers
  | none => []

/-! ## PublishHandler fan-out (broker/handler/publish_handler.rs)

Subscribers are translated to sockets through ClientHandler::get_socket,
failed lookups are filtered out and the sending socket is excluded.
The source chains map, filter is_ok, map unwrap; filterMap over the
Except turned into an Option is the same computation. -/

/-- The recipient sockets computed by PublishHandler::process step 5. -/
def PublishHandler.recipients (client_handler : ClientHandler)
    (socket : SocketAddr) (subscribers : List ClientId) : List SocketAddr :=
  (subscribers.filterMap
      (fun receiver => (client_handler.get_socket receiver).toOption)).filter
    (fun receiver => receiver ≠ socket)

/-! ## PubrecHandler (broker/handler/pubrec_handler.rs)

The handler holds only the client and topic registries plus the queue
to the Tx stage; a processed PUBREC emits queue messages and touches no
session state. The source repeats its send block verbatim. -/

/-- PubrecHandler::process: the emitted (recipients, packet) queue
messages, or the error from get_client_id; none models the unwrap
panic on a packet without a variable header. -/
def PubrecHandler.process (client_handler : ClientHandler)
    (socket : SocketAddr) (control_packet : ControlPacket) :
    Option (Except String (List (List SocketAddr × ControlPacket))) :=
  match client_handler.get_client_id socket with
  | .error e => some (.error e)
  | .ok _ =>
      match control_packet.variable_header with
      | none => none
      | some vh =>
          let pubrel_packet := ControlPacket.pubrel vh.packet_identifier
          let first_send := ([socket], pubrel_packet)
          match client_handler.get_client_id socket with
          | .error e => some (.error e)
          | .ok _ =>
              match control_packet.variable_header with
              | none => none
              | some vh2 =>
                  let pubrel_packet2 := ControlPacket.pubrel vh2.packet_identifier
                  some (.ok [first_send, ([socket], pubrel_packet2)])

/-! ## Tx stage (connection/tx_connection_handler.rs)

Per recipient, a DISCONNECT packet is not written: the task branches on
is_disconnection straight into clean_after_disconnection. Otherwise the
write half is looked up in the stream map and the encoded buffer is
written. Observable actions are recorded as events in program order.
The TopicHandler the Tx stage calls is the method-based registry whose
implementation file is not part of the sources; its unsubscribe_all is
the UnsubscribeAll command semantics of topic/topic_handler.rs. -/

/-- Observable side effects of the per-recipient Tx task. -/
inductive TxEvent where
  | wrote (socket : SocketAddr)
  | shutdownStream (socket : SocketAddr)
  | removedFromMap (socket : SocketAddr)
  | unsubscribedAll (client_id : ClientId)
deriving DecidableEq, Repr

/-- The shared state the Tx stage touches: the stream map (a socket is
present when its write half is stored), the client registry and the
topic registry. -/
structure TxState where
  stream_repository : List (SocketAddr × Unit)
  client_handler : ClientHandler
  topics : TopicMap

/-- TxConnectionHandler::is_disconnection. -/
def TxConnectionHandler.is_disconnection (packet : ControlPacket) : Bool :=
  packet.fixed_header.packet_type = ControlPacketType.DISCONNECT

/-- TxConnectionHandler::clean_after_disconnection: unregister the
client by socket and scrub its subscriptions, then shut the write half
down when present, then remove it from the stream map. -/
def TxConnectionHandler.clean_after_disconnection (socket : SocketAddr)
    (st : TxState) : TxState × List TxEvent :=
  let unreg := st.client_handler.unregister_by_socket socket
  let topics2 :=
    match unreg.2 with
    | some client_id => TopicHandler.unsubscribe_all_cmd client_id st.topics
    | none => st.topics
  let ev1 :=
    match unreg.2 with
    | some client_id => [TxEvent.unsubscribedAll client_id]
    | none => []
  let ev2 :=
    if mapContains socket st.stream_repository then
      [TxEvent.shutdownStream socket]
    else []
  (⟨mapErase socket st.stream_repository, unreg.1, topics2⟩,
    ev1 ++ ev2 ++ [TxEvent.removedFromMap socket])

/-- The per-recipient task body of handle_outgoing_connections: clean
up on DISCONNECT, otherwise write the encoded packet to the stored
write half when one exists. -/
def TxConnectionHandler.handle_recipient (packet : ControlPacket)
    (socket : SocketAddr) (st : TxState) : TxState × List TxEvent :=
  if TxConnectionHandler.is_disconnection packet then
    TxConnectionHandler.clean_after_disconnection socket st
  else
    match mapLookup socket st.stream_repository with
    | some _ => (st, [TxEvent.wrote socket])
    | none => (st, [])

/-! ## Auxiliary map lemmas -/

theorem mapLookup_map_values [DecidableEq κ] (k : κ) (g : ν → ν)
    (m : List (κ × ν)) :
    mapLookup k (m.map (fun p => (p.1, g p.2))) = (mapLookup k m).map g := by
  induction m with
  | nil => rfl
  | cons p rest ih =>
      by_cases h : p.1 = k <;> simp [mapLookup, h, ih]

theorem mapErase_insert_same [DecidableEq κ] (k : κ) (v : ν)
    (m : List (κ × ν)) : mapErase k (mapInsert k v m) = mapErase k m := by
  simp only [mapInsert, mapErase, List.filter_cons]
  simp [List.filter_filter]

theorem mapInsert_insert_same [DecidableEq κ] (k : κ) (v w : ν)
    (m : List (κ × ν)) : mapInsert k v (mapInsert k w m) = mapInsert k v m := by
  simp only [mapInsert]
  rw [show mapErase k ((k, w) :: mapErase k m) = mapErase k (mapInsert k w m)
    from rfl]
  rw [mapErase_insert_same]

/-! ## Claim theorems for the registries and handlers -/

/-- Result-ness test of a Rust Result. -/
def exceptIsOk : Except ε α → Bool
  | .ok _ => true
  | .error _ => false

/-- C5: after register(s, c), get_client_id(s) returns c and
get_socket(c) returns s; after unregister(s, c), both calls fail. -/
theorem C5_registry_pair_consistency (st : ClientHandler) (s : SocketAddr)
    (c : ClientId) :
    ((st.register s c).1.get_client_id s = .ok c ∧
      (st.register s c).1.get_socket c = .ok s) ∧
    (exceptIsOk ((st.unregister s c).get_client_id s) = false ∧
      exceptIsOk ((st.unregister s c).get_socket c) = false) := by
  refine ⟨⟨?_, ?_⟩, ?_, ?_⟩
  · simp [ClientHandler.register, ClientHandler.get_client_id,
      mapLookup_insert]
  · simp [ClientHandler.register, ClientHandler.get_socket, mapLookup_insert]
  · simp [ClientHandler.unregister, ClientHandler.get_client_id,
      mapLookup_erase, exceptIsOk]
  · simp [ClientHandler.unregister, ClientHandler.get_socket,
      mapLookup_erase, exceptIsOk]

/-- C6 counterexample: on the fresh SessionHandler no acknowledgment
map has entries, so registering a PUBACK, PUBREL or PUBREC and then
querying the corresponding completion does not return true: the
guarded insert of the register methods never fires. -/
theorem C6_register_ack_counterexample :
    ¬ ((SessionHandler.new.register_puback "client"
          (ControlPacket.puback (some 1))).bind
        (fun st => st.is_puback_complete "client"
          (ControlPacket.puback (some 1))) = some true) ∧
    ¬ ((SessionHandler.new.register_pubrel "client"
          (ControlPacket.pubrel (some 1))).bind
        (fun st => st.is_pubrel_complete "client"
          (ControlPacket.pubrel (some 1))) = some true) ∧
    ¬ ((SessionHandler.new.register_pubrec "client"
          (ControlPacket.pubrec (some 1))).bind
        (fun st => st.is_pubrec_complete "client"
          (ControlPacket.pubrec (some 1))) = some true) := by
  refine ⟨?_, ?_, ?_⟩ <;> decide

/-- C6 amended: register_puback / register_pubrel / register_pubrec
mark the acknowledgment received only when an entry for
(client_id, packet_id) already exists in the corresponding map; the
completion query afterwards returns exactly whether the key was
already present, and false on a fresh session. -/
theorem C6_register_ack_guarded (st : SessionHandler) (c : ClientId)
    (p : ControlPacket) (pid : Nat)
    (h : p.vh_packet_identifier = some pid) :
    ((st.register_puback c p).bind
        (fun st2 => st2.is_puback_complete c p)
      = some (mapContains (c, pid) st.client2puback)) ∧
    ((st.register_pubrel c p).bind
        (fun st2 => st2.is_pubrel_complete c p)
      = some (mapContains (c, pid) st.client2pubrel)) ∧
    ((st.register_pubrec c p).bind
        (fun st2 => st2.is_pubrec_complete c p)
      = some (mapContains (c, pid) st.client2pubrec)) := by
  refine ⟨?_, ?_, ?_⟩
  · by_cases hc : mapContains (c, pid) st.client2puback
    · simp [SessionHandler.register_puback, SessionHandler.is_puback_complete,
        h, hc, mapLookup_insert]
    · simp only [SessionHandler.register_puback,
        SessionHandler.is_puback_complete, h, hc, if_false, Option.bind_some,
        if_neg hc, Bool.false_eq_true]
      simp only [mapContains, Option.isSome] at hc
      rcases hlook : mapLookup (c, pid) st.client2puback with _ | v
      · simp [hlook]
      · rw [hlook] at hc
        simp at hc
  · by_cases hc : mapContains (c, pid) st.client2pubrel
    · simp [SessionHandler.register_pubrel, SessionHandler.is_pubrel_complete,
        h, hc, mapLookup_insert]
    · simp only [SessionHandler.register_pubrel,
        SessionHandler.is_pubrel_complete, h, hc, if_false, Option.bind_some,
        if_neg hc, Bool.false_eq_true]
      simp only [mapContains, Option.isSome] at hc
      rcases hlook : mapLookup (c, pid) st.client2pubrel with _ | v
      · simp [hlook]
      · rw [hlook] at hc
        simp at hc
  · by_cases hc : mapContains (c, pid) st.client2pubrec
    · simp [SessionHandler.register_pubrec, SessionHandler.is_pubrec_complete,
        h, hc, mapLookup_insert]
    · simp only [SessionHandler.register_pubrec,
        SessionHandler.is_pubrec_complete, h, hc, if_false, Option.bind_some,
        if_neg hc, Bool.false_eq_true]
      simp only [mapContains, Option.isSome] at hc
      rcases hlook : mapLookup (c, pid) st.client2pubrec with _ | v
      · simp [hlook]
      · rw [hlook] at hc
        simp at hc

/-- C6 witness: the amended statement evaluated on the fresh session
for packet identifier 1. -/
theorem C6_register_ack_guarded_witness :
    ((SessionHandler.new.register_puback "client"
        (ControlPacket.puback (some 1))).bind
      (fun st2 => st2.is_puback_complete "client"
        (ControlPacket.puback (some 1)))
      = some (mapContains ("client", 1) SessionHandler.new.client2puback)) ∧
    ((SessionHandler.new.register_pubrel "client"
        (ControlPacket.pubrel (some 1))).bind
      (fun st2 => st2.is_pubrel_complete "client"
        (ControlPacket.pubrel (some 1)))
      = some (mapContains ("client", 1) SessionHandler.new.client2pubrel)) ∧
    ((SessionHandler.new.register_pubrec "client"
        (ControlPacket.pubrec (some 1))).bind
      (fun st2 => st2.is_pubrec_complete "client"
        (ControlPacket.pubrec (some 1)))
      = some (mapContains ("client", 1) SessionHandler.new.client2pubrec)) :=
  ⟨(C6_register_ack_guarded SessionHandler.new "client"
      (ControlPacket.puback (some 1)) 1 rfl).1,
    (C6_register_ack_guarded SessionHandler.new "client"
      (ControlPacket.pubrel (some 1)) 1 rfl).2.1,
    (C6_register_ack_guarded SessionHandler.new "client"
      (ControlPacket.pubrec (some 1)) 1 rfl).2.2⟩

theorem hashsetInsert_mem (c : ClientId) (s : List ClientId) :
    c ∈ hashsetInsert c s := by
  by_cases h : c ∈ s <;> simp [hashsetInsert, h]

theorem hashsetInsert_idem (c : ClientId) (s : List ClientId) :
    hashsetInsert c (hashsetInsert c s) = hashsetInsert c s := by
  rw [show hashsetInsert c (hashsetInsert c s)
      = if c ∈ hashsetInsert c s then hashsetInsert c s
        else hashsetInsert c s ++ [c] from rfl]
  rw [if_pos (hashsetInsert_mem c s)]

theorem unsubscribe_all_scrubs (cid : ClientId) (f : String) (m : TopicMap) :
    cid ∉ TopicHandler.find_subscribers_cmd f
      (TopicHandler.unsubscribe_all_cmd cid m) := by
  simp only [TopicHandler.unsubscribe_all_cmd,
    TopicHandler.find_subscribers_cmd, mapLookup_map_values]
  rcases hl : mapLookup f m with _ | subs
  · simp
  · intro hmem
    simp [Option.map] at hmem

/-- C7: subscribing the same client to the same filter twice leaves
exactly the state of a single subscribe, so find_subscribers agrees;
on a duplicate-free membership set the client is listed exactly once
afterwards and the set stays duplicate-free. -/
theorem C7_subscribe_idempotent (m : TopicMap) (c : ClientId) (f : String)
    (h : (TopicHandler.find_subscribers_cmd f m).Nodup) :
    TopicHandler.subscribe_cmd c f (TopicHandler.subscribe_cmd c f m)
      = TopicHandler.subscribe_cmd c f m ∧
    (TopicHandler.find_subscribers_cmd f
        (TopicHandler.subscribe_cmd c f m)).count c = 1 ∧
    (TopicHandler.find_subscribers_cmd f
        (TopicHandler.subscribe_cmd c f m)).Nodup := by
  have hfind : ∀ s0 : List ClientId,
      TopicHandler.find_subscribers_cmd f (mapInsert f s0 m) = s0 := by
    intro s0
    simp [TopicHandler.find_subscribers_cmd, mapLookup_insert]
  have hsub : ∃ s0 : List ClientId,
      TopicHandler.subscribe_cmd c f m = mapInsert f (hashsetInsert c s0) m ∧
      s0 = TopicHandler.find_subscribers_cmd f m := by
    by_cases hc : mapContains f m
    · refine ⟨(mapLookup f m).getD [], by simp [TopicHandler.subscribe_cmd, hc], ?_⟩
      simp only [mapContains, Option.isSome] at hc
      rcases hl : mapLookup f m with _ | s
      · rw [hl] at hc
        simp at hc
      · simp [TopicHandler.find_subscribers_cmd, hl]
    · refine ⟨[], by simp [TopicHandler.subscribe_cmd, hc], ?_⟩
      simp only [mapContains, Option.isSome] at hc
      rcases hl : mapLookup f m with _ | s
      · simp [TopicHandler.find_subscribers_cmd, hl]
      · rw [hl] at hc
        simp at hc
  obtain ⟨s0, hs, hs0⟩ := hsub
  have hnodup0 : s0.Nodup := hs0 ▸ h
  have hnodup1 : (hashsetInsert c s0).Nodup := by
    by_cases hm : c ∈ s0
    · simpa [hashsetInsert, hm] using hnodup0
    · simp only [hashsetInsert, hm, if_false]
      exact List.Nodup.append hnodup0 (List.nodup_singleton c)
        (by simpa using hm)
  refine ⟨?_, ?_, ?_⟩
  · rw [hs]
    have hcontains : mapContains f (mapInsert f (hashsetInsert c s0) m) = true := by
      simp [mapContains, mapLookup_insert]
    simp only [TopicHandler.subscribe_cmd, hcontains, mapLookup_insert,
      Option.getD_some, hashsetInsert_idem]
    exact mapInsert_insert_same f _ _ m
  · rw [hs, hfind]
    exact List.count_eq_one_of_mem hnodup1 (hashsetInsert_mem c s0)
  · rw [hs, hfind]
    exact hnodup1

/-- C7 witness: the idempotence statement evaluated on the empty topic
registry. -/
theorem C7_subscribe_idempotent_witness :
    TopicHandler.subscribe_cmd "c" "f" (TopicHandler.subscribe_cmd "c" "f" [])
      = TopicHandler.subscribe_cmd "c" "f" [] ∧
    (TopicHandler.find_subscribers_cmd "f"
        (TopicHandler.subscribe_cmd "c" "f" [])).count "c" = 1 ∧
    (TopicHandler.find_subscribers_cmd "f"
        (TopicHandler.subscribe_cmd "c" "f" [])).Nodup :=
  C7_subscribe_idempotent [] "c" "f" (by simp [TopicHandler.find_subscribers_cmd, mapLookup])

/-- C8: the fan-out recipient list of the publish handler never
contains the sending socket, and contains the socket of every other
subscriber whose socket lookup succeeds. -/
theorem C8_no_self_delivery (client_handler : ClientHandler)
    (socket : SocketAddr) (subscribers : List ClientId) :
    socket ∉ PublishHandler.recipients client_handler socket subscribers ∧
    (∀ c ∈ subscribers, ∀ t : SocketAddr,
      client_handler.get_socket c = .ok t → t ≠ socket →
      t ∈ PublishHandler.recipients client_handler socket subscribers) := by
  constructor
  · intro hmem
    have := (List.mem_filter.mp hmem).2
    simp at this
  · intro c hc t ht hne
    refine List.mem_filter.mpr ⟨?_, by simpa using hne⟩
    refine List.mem_filterMap.mpr ⟨c, hc, ?_⟩
    simp [ht, Except.toOption]

/-- C8 witness: a registry binding client b to socket 2; the sender on
socket 1 is excluded, the subscriber socket 2 is included. -/
theorem C8_no_self_delivery_witness :
    1 ∉ PublishHandler.recipients ⟨[(1, "a")], [("b", 2)]⟩ 1 ["b"] ∧
    2 ∈ PublishHandler.recipients ⟨[(1, "a")], [("b", 2)]⟩ 1 ["b"] :=
  ⟨(C8_no_self_delivery ⟨[(1, "a")], [("b", 2)]⟩ 1 ["b"]).1,
    (C8_no_self_delivery ⟨[(1, "a")], [("b", 2)]⟩ 1 ["b"]).2 "b"
      (by simp) 2 (by rfl) (by decide)⟩

/-- C3: on a PUBREC from a registered client the handler emits the
PUBREL twice (the send block is duplicated verbatim in the source) and
touches no session state: the emitted queue messages are two identical
PUBREL sends and nothing else. -/
theorem C3_pubrec_emits_two_pubrels (client_handler : ClientHandler)
    (socket : SocketAddr) (p : ControlPacket) (vh : VariableHeader)
    (cid : ClientId)
    (h1 : client_handler.get_client_id socket = .ok cid)
    (h2 : p.variable_header = some vh) :
    PubrecHandler.process client_handler socket p =
      some (.ok
        [([socket], ControlPacket.pubrel vh.packet_identifier),
          ([socket], ControlPacket.pubrel vh.packet_identifier)]) := by
  simp [PubrecHandler.process, h1, h2]

/-- C3 witness: the failing input evaluated concretely, a PUBREC with
packet identifier 42 from the registered socket 1. -/
theorem C3_pubrec_emits_two_pubrels_witness :
    PubrecHandler.process ⟨[(1, "c")], [("c", 1)]⟩ 1
        (ControlPacket.pubrec (some 42)) =
      some (.ok
        [([1], ControlPacket.pubrel (some 42)),
          ([1], ControlPacket.pubrel (some 42))]) :=
  C3_pubrec_emits_two_pubrels ⟨[(1, "c")], [("c", 1)]⟩ 1
    (ControlPacket.pubrec (some 42)) _ "c" rfl rfl

/-- C4 counterexample: a DISCONNECT for a connected recipient whose
write half is stored produces no write at all; the claim says the
encoded packet is written to the recipient first. -/
theorem C4_disconnect_not_written_counterexample :
    TxConnectionHandler.is_disconnection
      (ControlPacket.disconnect .NormalDisconnection) = true ∧
    mapContains 1
      (⟨[(1, ())], ⟨[(1, "c")], [("c", 1)]⟩, [("t", ["c"])]⟩ : TxState).stream_repository
      = true ∧
    (TxConnectionHandler.handle_recipient
        (ControlPacket.disconnect .NormalDisconnection) 1
        ⟨[(1, ())], ⟨[(1, "c")], [("c", 1)]⟩, [("t", ["c"])]⟩).2
      = [TxEvent.unsubscribedAll "c", TxEvent.shutdownStream 1,
          TxEvent.removedFromMap 1] ∧
    TxEvent.wrote 1 ∉
      (TxConnectionHandler.handle_recipient
        (ControlPacket.disconnect .NormalDisconnection) 1
        ⟨[(1, ())], ⟨[(1, "c")], [("c", 1)]⟩, [("t", ["c"])]⟩).2 := by
  refine ⟨rfl, rfl, rfl, ?_⟩
  decide

/-- C4 amended: on a DISCONNECT message the Tx stage skips the write
entirely; per recipient it unregisters the client by socket (and when
a client id comes back, removes it from every topic set), shuts the
stored write half down and removes it from the stream map. -/
theorem C4_disconnect_cleanup (st : TxState) (packet : ControlPacket)
    (socket : SocketAddr)
    (h : packet.fixed_header.packet_type = .DISCONNECT) :
    (∀ s2, TxEvent.wrote s2 ∉
      (TxConnectionHandler.handle_recipient packet socket st).2) ∧
    mapLookup socket
      (TxConnectionHandler.handle_recipient packet socket st).1.stream_repository
      = none ∧
    mapLookup socket
      (TxConnectionHandler.handle_recipient packet socket st).1.client_handler.socket2id
      = none ∧
    (∀ cid, mapLookup socket st.client_handler.socket2id = some cid →
      ∀ f, cid ∉ TopicHandler.find_subscribers_cmd f
        (TxConnectionHandler.handle_recipient packet socket st).1.topics) ∧
    TxEvent.removedFromMap socket ∈
      (TxConnectionHandler.handle_recipient packet socket st).2 := by
  have hd : TxConnectionHandler.is_disconnection packet = true := by
    simp [TxConnectionHandler.is_disconnection, h]
  have hr : TxConnectionHandler.handle_recipient packet socket st
      = TxConnectionHandler.clean_after_disconnection socket st := by
    simp [TxConnectionHandler.handle_recipient, hd]
  rw [hr]
  have hunreg : (st.client_handler.unregister_by_socket socket).2
      = mapLookup socket st.client_handler.socket2id := rfl
  refine ⟨?_, ?_, ?_, ?_, ?_⟩
  · intro s2 hmem
    rcases hl : (st.client_handler.unregister_by_socket socket).2 with _ | cid <;>
      by_cases hc : mapContains socket st.stream_repository <;>
        simp [TxConnectionHandler.clean_after_disconnection, hl, hc] at hmem
  · simp [TxConnectionHandler.clean_after_disconnection, mapLookup_erase]
  · simp [TxConnectionHandler.clean_after_disconnection,
      ClientHandler.unregister_by_socket, mapLookup_erase]
  · intro cid hcid f
    have hl : (st.client_handler.unregister_by_socket socket).2 = some cid := by
      rw [hunreg, hcid]
    simp only [TxConnectionHandler.clean_after_disconnection, hl]
    exact unsubscribe_all_scrubs cid f st.topics
  · simp [TxConnectionHandler.clean_after_disconnection]

/-- C4 witness: the amended statement evaluated at a concrete state
with one registered client, one stored write half and one topic
membership. -/
theorem C4_disconnect_cleanup_witness :
    (∀ s2, TxEvent.wrote s2 ∉
      (TxConnectionHandler.handle_recipient
        (ControlPacket.disconnect .NormalDisconnection) 1
        ⟨[(1, ())], ⟨[(1, "c")], [("c", 1)]⟩, [("t", ["c"])]⟩).2) ∧
    mapLookup 1
      (TxConnectionHandler.handle_recipient
        (ControlPacket.disconnect .NormalDisconnection) 1
        ⟨[(1, ())], ⟨[(1, "c")], [("c", 1)]⟩, [("t", ["c"])]⟩).1.stream_repository
      = none ∧
    mapLookup 1
      (TxConnectionHandler.handle_recipient
        (ControlPacket.disconnect .NormalDisconnection) 1
        ⟨[(1, ())], ⟨[(1, "c")], [("c", 1)]⟩, [("t", ["c"])]⟩).1.client_handler.socket2id
      = none ∧
    (∀ cid, mapLookup 1
        (⟨[(1, ())], ⟨[(1, "c")], [("c", 1)]⟩, [("t", ["c"])]⟩ : TxState).client_handler.socket2id
        = some cid →
      ∀ f, cid ∉ TopicHandler.find_subscribers_cmd f
        (TxConnectionHandler.handle_recipient
          (ControlPacket.disconnect .NormalDisconnection) 1
          ⟨[(1, ())], ⟨[(1, "c")], [("c", 1)]⟩, [("t", ["c"])]⟩).1.topics) ∧
    TxEvent.removedFromMap 1 ∈
      (TxConnectionHandler.handle_recipient
        (ControlPacket.disconnect .NormalDisconnection) 1
        ⟨[(1, ())], ⟨[(1, "c")], [("c", 1)]⟩, [("t", ["c"])]⟩).2 :=
  C4_disconnect_cleanup
    ⟨[(1, ())], ⟨[(1, "c")], [("c", 1)]⟩, [("t", ["c"])]⟩
    (ControlPacket.disconnect .NormalDisconnection) 1 rfl

/-! ## Encoder (serdes/serializer, serdes/trait/encoder.rs)

Segment encoders return Option (List Nat): none models a Rust panic.
Inside MqttEncoderImpl::encode_packet every segment is first sized via
LengthCalculator::calculate_length, which runs encode under expect, so
an EncodeError surfacing from a segment always panics there; the final
encode calls replay the cached buffers and cannot fail. The write
helpers of the Encoder trait keep their EncodeResult signatures. -/

/-- serializer/error.rs EncodeError. -/
inductive EncodeError where
  | NotEnoughData
  | ExceededMaxLength
deriving DecidableEq, Repr

/-- The byte list produced by the loop of
Encoder::write_variable_byte_integer: low 7 bits first, continuation
bit 128 set while a nonzero quotient remains. -/
def write_vbi_bytes (value : Nat) : List Nat :=
  let encoded_byte := value % 128
  if h : 0 < value / 128 then
    (encoded_byte ||| 128) :: write_vbi_bytes (value / 128)
  else
    [encoded_byte]
termination_by value
decreasing_by
  exact Nat.div_lt_self (by omega) (by omega)

/-- Encoder::write_variable_byte_integer: the loop never fails. -/
def Encoder.write_variable_byte_integer (value : Nat) :
    Except EncodeError (List Nat) :=
  .ok (write_vbi_bytes value)

/-- BufMut::put_u16: big-endian bytes of the low 16 bits. -/
def put_u16 (v : Nat) : List Nat :=
  [v / 256 % 256, v % 256]

/-- Encoder::write_utf8_encoded_string: two-byte length prefix and the
raw bytes; fails when the length exceeds u16::MAX. -/
def Encoder.write_utf8_encoded_string (value : MqttStr) :
    Except EncodeError (List Nat) :=
  if 65535 < value.length then .error .ExceededMaxLength
  else .ok (put_u16 value.length ++ value)

/-- Encoder::write_binary_data: identical framing. -/
def Encoder.write_binary_data (value : List Nat) :
    Except EncodeError (List Nat) :=
  if 65535 < value.length then .error .ExceededMaxLength
  else .ok (put_u16 value.length ++ value)

/-- PropertyEncoder::encode: property encoding is not implemented in
the source (TODO there); it always writes a zero length. -/
def PropertyEncoder.encode (_item : List Property) :
    Except EncodeError (List Nat) :=
  match Encoder.write_variable_byte_integer 0 with
  | .ok bs => .ok bs
  | .error e => .error e

/-- FixedHeaderEncoder::encode_control_flags: only the first three of
the four flags are written (the source loop runs to len - 1), each at
bit position i counted from the least significant bit. -/
def FixedHeaderEncoder.encode_control_flags (first_byte : Nat)
    (control_flags : List Bool) : Except EncodeError Nat :=
  if control_flags.length ≠ 4 then .error .NotEnoughData
  else
    .ok ((List.range (control_flags.length - 1)).foldl
      (fun fb i => ((if control_flags.getD i false then 1 else 0) <<< i) ||| fb)
      first_byte)

/-- FixedHeaderEncoder::encode_publish_flags: dup at bit 0, the qos
pair at bits 1 and 2, retain at bit 3. -/
def FixedHeaderEncoder.encode_publish_flags (first_byte : Nat)
    (dup_flag : Bool) (qos_level : QoSLevel) (retain : Bool) : Nat :=
  let fb1 := ((if dup_flag then 1 else 0) <<< 0) ||| first_byte
  let qos_flags := qos_level.to_bool
  let fb2 := ((if qos_flags.2 then 1 else 0) <<< 1) ||| fb1
  let fb3 := ((if qos_flags.1 then 1 else 0) <<< 2) ||| fb2
  ((if retain then 1 else 0) <<< 3) ||| fb3

/-- FixedHeaderEncoder::encode: the first byte then the
variable-byte-integer remaining length. none: a missing publish flag
or flag vector (accessor unwrap), or the NotEnoughData error, which
calculate_length turns into a panic. -/
def FixedHeaderEncoder.encode (fixed_header : FixedHeader)
    (remaining_length : Nat) : Option (List Nat) :=
  match fixed_header.packet_type with
  | .PUBLISH =>
      match fixed_header.dup_flag, fixed_header.qos_level,
          fixed_header.retain with
      | some d, some q, some r =>
          some (FixedHeaderEncoder.encode_publish_flags
              (ControlPacketType.as_u8 .PUBLISH) d q r
            :: write_vbi_bytes remaining_length)
      | _, _, _ => none
  | t =>
      match fixed_header.control_flags with
      | none => none
      | some cf =>
          match FixedHeaderEncoder.encode_control_flags t.as_u8 cf with
          | .error _ => none
          | .ok fb => some (fb :: write_vbi_bytes remaining_length)

/-- VariableHeaderEncoder::encode_reason_code: a byte only when a
reason code is present. -/
def VariableHeaderEncoder.encode_reason_code (rc : Option ReasonCode) :
    List Nat :=
  match rc with
  | some r => [r.as_u8]
  | none => []

/-- VariableHeaderEncoder::encode: note the CONNECT, SUBSCRIBE,
UNSUBSCRIBE, DISCONNECT (and PINGREQ, PINGRESP, AUTH, RESERVED) arms
write nothing at all. none models the unwrap and expect panics. -/
def VariableHeaderEncoder.encode (packet_type : ControlPacketType)
    (item : VariableHeader) : Option (List Nat) :=
  match packet_type with
  | .RESERVED => some []
  | .CONNECT => some []
  | .CONNACK =>
      match item.connect_acknowledge_flags with
      | none => none
      | some flags =>
          let b := ((if flags.session_present then 1 else 0) <<< 0) ||| 0
          match PropertyEncoder.encode item.properties with
          | .error _ => none
          | .ok props =>
              some ([b] ++ VariableHeaderEncoder.encode_reason_code
                  item.reason_code ++ props)
  | .PUBLISH =>
      match item.topic_name with
      | none => none
      | some topic =>
          match Encoder.write_utf8_encoded_string topic with
          | .error _ => none
          | .ok ts =>
              let pid_bytes :=
                match item.packet_identifier with
                | some pid => put_u16 pid
                | none => []
              match PropertyEncoder.encode item.properties with
              | .error _ => none
              | .ok props => some (ts ++ pid_bytes ++ props)
  | .PUBACK =>
      match item.packet_identifier with
      | none => none
      | some pid =>
          match PropertyEncoder.encode item.properties with
          | .error _ => none
          | .ok props =>
              some (put_u16 pid ++ VariableHeaderEncoder.encode_reason_code
                  item.reason_code ++ props)
  | .PUBREC =>
      match item.packet_identifier with
      | none => none
      | some pid =>
          match PropertyEncoder.encode item.properties with
          | .error _ => none
          | .ok props =>
              some (put_u16 pid ++ VariableHeaderEncoder.encode_reason_code
                  item.reason_code ++ props)
  | .PUBREL =>
      match item.packet_identifier with
      | none => none
      | some pid =>
          match PropertyEncoder.encode item.properties with
          | .error _ => none
          | .ok props =>
              some (put_u16 pid ++ VariableHeaderEncoder.encode_reason_code
                  item.reason_code ++ props)
  | .PUBCOMP =>
      match item.packet_identifier with
      | none => none
      | some pid =>
          match PropertyEncoder.encode item.properties with
          | .error _ => none
          | .ok props =>
              some (put_u16 pid ++ VariableHeaderEncoder.encode_reason_code
                  item.reason_code ++ props)
  | .SUBSCRIBE => some []
  | .SUBACK =>
      match item.packet_identifier with
      | none => none
      | some pid =>
          match PropertyEncoder.encode item.properties with
          | .error _ => none
          | .ok props => some (put_u16 pid ++ props)
  | .UNSUBSCRIBE => some []
  | .UNSUBACK =>
      match item.packet_identifier with
      | none => none
      | some pid =>
          match PropertyEncoder.encode item.properties with
          | .error _ => none
          | .ok props => some (put_u16 pid ++ props)
  | .PINGREQ => some []
  | .PINGRESP => some []
  | .DISCONNECT => some []
  | .AUTH => some []

/-- PayloadEncoder::encode: raw bytes for PUBLISH, one reason-code
byte per entry for SUBACK and UNSUBACK, nothing otherwise. -/
def PayloadEncoder.encode (packet_type : ControlPacketType)
    (item : Payload) : Option (List Nat) :=
  match packet_type with
  | .PUBLISH =>
      match item.data with
      | none => none
      | some data => some data
  | .SUBACK =>
      match item.reason_codes with
      | none => none
      | some rcs => some (rcs.map ReasonCode.as_u8)
  | .UNSUBACK =>
      match item.reason_codes with
      | none => none
      | some rcs => some (rcs.map ReasonCode.as_u8)
  | _ => some []

/-- MqttEncoderImpl::encode_packet: size the payload, then the
variable header (each by encoding it), sum into the remaining length,
then emit fixed header, variable header and payload in that order. -/
def MqttEncoderImpl.encode_packet (packet : ControlPacket) :
    Option (List Nat) :=
  match (match packet.payload with
         | none => some []
         | some pl => PayloadEncoder.encode packet.fixed_header.packet_type pl) with
  | none => none
  | some payload_bytes =>
      match (match packet.variable_header with
             | none => some []
             | some vh =>
                 VariableHeaderEncoder.encode packet.fixed_header.packet_type vh) with
      | none => none
      | some vh_bytes =>
          let calculated_remaining_length :=
            payload_bytes.length + vh_bytes.length
          match FixedHeaderEncoder.encode packet.fixed_header
              calculated_remaining_length with
          | none => none
          | some fixed_bytes => some (fixed_bytes ++ vh_bytes ++ payload_bytes)

/-! ## Decoder errors (serdes/deserializer/error.rs) -/

/-- deserializer/error.rs ReadError. -/
inductive ReadError where
  | ConnectionError
  | NotEnoughData (position length requested : Nat)
  | TooManyBitsForType (position requested allowed : Nat)
  | ExceededMaxLength
  | ExceededMaxValue (current max : Nat)
  | InvalidData
  | IOError
deriving DecidableEq, Repr

/-- deserializer/error.rs DecodeError: each variant carries its
ReadError cause. -/
inductive DecodeError where
  | VariableHeaderAndPayload (cause : ReadError)
  | ConnectionTimedOut (cause : ReadError)
  | VariableByteInteger (cause : ReadError)
  | UTF8String (cause : ReadError)
  | BinaryData (cause : ReadError)
  | PacketType (cause : ReadError)
  | RemainingLength (cause : ReadError)
  | ProtocolName (cause : ReadError)
  | ProtocolVersion (cause : ReadError)
  | ConnectFlags (cause : ReadError)
  | PropertyLength (cause : ReadError)
  | UnknownProperty (cause : ReadError)
  | KeepAlive (cause : ReadError)
  | ClientId (cause : ReadError)
  | Username (cause : ReadError)
  | Password (cause : ReadError)
  | WillProperties (cause : ReadError)
  | WillTopic (cause : ReadError)
  | WillPayload (cause : ReadError)
  | ControlFlags (cause : ReadError)
  | UsernameFlag (cause : ReadError)
  | PasswordFlag (cause : ReadError)
  | WillRetainFlag (cause : ReadError)
  | WillQoSFlag (cause : ReadError)
  | CleanStartFlag (cause : ReadError)
  | WillFlag (cause : ReadError)
  | ReservedFlag (cause : ReadError)
  | Property (cause : ReadError)
  | RetainHandling (cause : ReadError)
  | MaximumQoS (cause : ReadError)
  | TopicFilter (cause : ReadError)
  | RetainAsPublished (cause : ReadError)
  | NoLocal (cause : ReadError)
  | PacketIdentifier (cause : ReadError)
  | QoSLevel (cause : ReadError)
  | DupFlag (cause : ReadError)
  | RetainFlag (cause : ReadError)
  | TopicName (cause : ReadError)
  | Payload (cause : ReadError)
  | ReasonCode (cause : ReadError)
deriving DecidableEq, Repr

/-- DecodeError::cause. -/
def DecodeError.cause : DecodeError → ReadError
  | .VariableHeaderAndPayload c => c
  | .ConnectionTimedOut c => c
  | .VariableByteInteger c => c
  | .UTF8String c => c
  | .BinaryData c => c
  | .PacketType c => c
  | .RemainingLength c => c
  | .ProtocolName c => c
  | .ProtocolVersion c => c
  | .ConnectFlags c => c
  | .PropertyLength c => c
  | .UnknownProperty c => c
  | .KeepAlive c => c
  | .ClientId c => c
  | .Username c => c
  | .Password c => c
  | .WillProperties c => c
  | .WillTopic c => c
  | .WillPayload c => c
  | .ControlFlags c => c
  | .UsernameFlag c => c
  | .PasswordFlag c => c
  | .WillRetainFlag c => c
  | .WillQoSFlag c => c
  | .CleanStartFlag c => c
  | .WillFlag c => c
  | .ReservedFlag c => c
  | .Property c => c
  | .RetainHandling c => c
  | .MaximumQoS c => c
  | .TopicFilter c => c
  | .RetainAsPublished c => c
  | .NoLocal c => c
  | .PacketIdentifier c => c
  | .QoSLevel c => c
  | .DupFlag c => c
  | .RetainFlag c => c
  | .TopicName c => c
  | .Payload c => c
  | .ReasonCode c => c

/-- Outcome of a decoding computation: a value, a DecodeError, or a
Rust panic (unwrap, expect, or a debug-build arithmetic underflow). -/
inductive Res (α : Type) where
  | ok : α → Res α
  | err : DecodeError → Res α
  | panicked : Res α
deriving DecidableEq, Repr

/-! ## BitReader model (the bitreader crate)

Most-significant-bit-first cursor over a byte buffer. The reader keeps
the unread bits, the bit position, and the total bit length, which the
NotEnoughData payloads report. -/

structure BitReader where
  bits : List Bool
  pos : Nat
  len : Nat
deriving DecidableEq, Repr

/-- BitReader::new over a byte buffer. -/
def BitReader.new (bytes : List Nat) : BitReader :=
  ⟨bytesToBits bytes, 0, (bytesToBits bytes).length⟩

/-- BitReader::remaining, in bits. -/
def BitReader.remaining (r : BitReader) : Nat := r.bits.length

/-- BitReader::position, in bits. -/
def BitReader.position (r : BitReader) : Nat := r.pos

/-- Core bit read of the bitreader crate: n bits, MSB first. -/
def BitReader.readBits (n : Nat) (r : BitReader) :
    Except ReadError (Nat × BitReader) :=
  if r.bits.length < n then .error (.NotEnoughData r.pos r.len n)
  else .ok (bitsToNat (r.bits.take n), ⟨r.bits.drop n, r.pos + n, r.len⟩)

/-- Decoder::read_u8 (bitreader read_u8: at most 8 bits). -/
def Decoder.read_u8 (bit_count : Nat) (r : BitReader) :
    Except ReadError (Nat × BitReader) :=
  if 8 < bit_count then .error (.TooManyBitsForType r.pos bit_count 8)
  else r.readBits bit_count

/-- Decoder::read_u16 (at most 16 bits). -/
def Decoder.read_u16 (bit_count : Nat) (r : BitReader) :
    Except ReadError (Nat × BitReader) :=
  if 16 < bit_count then .error (.TooManyBitsForType r.pos bit_count 16)
  else r.readBits bit_count

/-- Decoder::read_u32 (at most 32 bits). -/
def Decoder.read_u32 (bit_count : Nat) (r : BitReader) :
    Except ReadError (Nat × BitReader) :=
  if 32 < bit_count then .error (.TooManyBitsForType r.pos bit_count 32)
  else r.readBits bit_count

/-- Decoder::read_bool: one bit. -/
def Decoder.read_bool (r : BitReader) : Except ReadError (Bool × BitReader) :=
  match r.readBits 1 with
  | .error e => .error e
  | .ok (v, r2) => .ok (v == 1, r2)

/-- Decoder::read_booleans: bit_count consecutive bools. -/
def Decoder.read_booleans (bit_count : Nat) (r : BitReader) :
    Except ReadError (List Bool × BitReader) :=
  match bit_count with
  | 0 => .ok ([], r)
  | n + 1 =>
      match Decoder.read_bool r with
      | .error e => .error e
      | .ok (b, r2) =>
          match Decoder.read_booleans n r2 with
          | .error e => .error e
          | .ok (bs, r3) => .ok (b :: bs, r3)

/-- The loop body of Decoder::read_variable_byte_integer. The fuel
counts loop iterations; the multiplier check fails the fifth
iteration, so fuel 5 never exhausts and the fuel-zero arm is
unreachable. -/
def read_vbi_aux (fuel multiplier result : Nat) (r : BitReader) :
    Res (Nat × BitReader) :=
  match fuel with
  | 0 => .panicked
  | fuel + 1 =>
      match Decoder.read_u8 8 r with
      | .error err => .err (.VariableByteInteger err)
      | .ok (encoded_byte, r2) =>
          let result2 := result + (encoded_byte &&& 127) * multiplier
          if 128 * 128 * 128 < multiplier then
            .err (.VariableByteInteger
              (.ExceededMaxValue multiplier (128 * 128 * 128)))
          else if encoded_byte &&& 128 == 0 then
            .ok (result2, r2)
          else
            read_vbi_aux fuel (multiplier * 128) result2 r2

/-- Decoder::read_variable_byte_integer. -/
def Decoder.read_variable_byte_integer (r : BitReader) :
    Res (Nat × BitReader) :=
  read_vbi_aux 5 1 0 r

/-- count bytes read one by one, as the string and binary readers do. -/
def read_bytes_aux (count : Nat) (r : BitReader) :
    Except ReadError (List Nat × BitReader) :=
  match count with
  | 0 => .ok ([], r)
  | c + 1 =>
      match Decoder.read_u8 8 r with
      | .error e => .error e
      | .ok (b, r2) =>
          match read_bytes_aux c r2 with
          | .error e => .error e
          | .ok (bs, r3) => .ok (b :: bs, r3)

/-- Is a byte a UTF-8 continuation byte. -/
def utf8Cont (b : Nat) : Bool := 0x80 ≤ b && b ≤ 0xBF

/-- UTF-8 validity as String::from_utf8 checks it: surrogates,
overlong forms and values past U+10FFFF are rejected. -/
def utf8Valid : List Nat → Bool
  | [] => true
  | b :: rest =>
    if b ≤ 0x7F then utf8Valid rest
    else if 0xC2 ≤ b ∧ b ≤ 0xDF then
      match rest with
      | c1 :: rest2 => utf8Cont c1 && utf8Valid rest2
      | [] => false
    else if b = 0xE0 then
      match rest with
      | c1 :: c2 :: rest2 =>
          (0xA0 ≤ c1 && c1 ≤ 0xBF) && utf8Cont c2 && utf8Valid rest2
      | _ => false
    else if 0xE1 ≤ b ∧ b ≤ 0xEC then
      match rest with
      | c1 :: c2 :: rest2 => utf8Cont c1 && utf8Cont c2 && utf8Valid rest2
      | _ => false
    else if b = 0xED then
      match rest with
      | c1 :: c2 :: rest2 =>
          (0x80 ≤ c1 && c1 ≤ 0x9F) && utf8Cont c2 && utf8Valid rest2
      | _ => false
    else if 0xEE ≤ b ∧ b ≤ 0xEF then
      match rest with
      | c1 :: c2 :: rest2 => utf8Cont c1 && utf8Cont c2 && utf8Valid rest2
      | _ => false
    else if b = 0xF0 then
      match rest with
      | c1 :: c2 :: c3 :: rest2 =>
          (0x90 ≤ c1 && c1 ≤ 0xBF) && utf8Cont c2 && utf8Cont c3 &&
            utf8Valid rest2
      | _ => false
    else if 0xF1 ≤ b ∧ b ≤ 0xF3 then
      match rest with
      | c1 :: c2 :: c3 :: rest2 =>
          utf8Cont c1 && utf8Cont c2 && utf8Cont c3 && utf8Valid rest2
      | _ => false
    else if b = 0xF4 then
      match rest with
      | c1 :: c2 :: c3 :: rest2 =>
          (0x80 ≤ c1 && c1 ≤ 0x8F) && utf8Cont c2 && utf8Cont c3 &&
            utf8Valid rest2
      | _ => false
    else false
termination_by l => l.length
decreasing_by all_goals simp_arith [List.length_cons]

/-- Decoder::read_utf8_string: two-byte length, that many bytes,
validated as UTF-8. -/
def Decoder.read_utf8_string (r : BitReader) : Res (MqttStr × BitReader) :=
  match Decoder.read_u16 16 r with
  | .error err => .err (.UTF8String err)
  | .ok (string_length, r2) =>
      match read_bytes_aux string_length r2 with
      | .error err => .err (.UTF8String err)
      | .ok (value, r3) =>
          if utf8Valid value then .ok (value, r3)
          else .err (.UTF8String .InvalidData)

/-- Decoder::read_binary_data: identical framing, raw bytes. -/
def Decoder.read_binary_data (r : BitReader) : Res (List Nat × BitReader) :=
  match Decoder.read_u16 16 r with
  | .error err => .err (.BinaryData err)
  | .ok (binary_data_length, r2) =>
      match read_bytes_aux binary_data_length r2 with
      | .error err => .err (.BinaryData err)
      | .ok (binary_data, r3) => .ok (binary_data, r3)

/-! ## Fixed-header decoder (serdes/deserializer/fixed_header_decoder.rs) -/

/-- FixedHeaderDecoder::read_packet_type: the top nibble. -/
def FixedHeaderDecoder.read_packet_type (r : BitReader) :
    Res (ControlPacketType × BitReader) :=
  match Decoder.read_u8 4 r with
  | .error err => .err (.PacketType err)
  | .ok (packet_type_raw, r2) =>
      match ControlPacketType.from_u8 packet_type_raw with
      | none => .err (.PacketType (.ExceededMaxValue packet_type_raw 15))
      | some result => .ok (result, r2)

/-- FixedHeaderDecoder::read_control_flags: the low nibble as four
bools, MSB first. -/
def FixedHeaderDecoder.read_control_flags (r : BitReader) :
    Res (List Bool × BitReader) :=
  match Decoder.read_booleans 4 r with
  | .error err => .err (.ControlFlags err)
  | .ok (flags, r2) => .ok (flags, r2)

/-- FixedHeaderDecoder::read_remaining_length. -/
def FixedHeaderDecoder.read_remaining_length (r : BitReader) :
    Res (Nat × BitReader) :=
  match Decoder.read_variable_byte_integer r with
  | .err err => .err (.RemainingLength err.cause)
  | .panicked => .panicked
  | .ok (remaining_length, r2) => .ok (remaining_length, r2)

/-- FixedHeaderDecoder::decode (Decoder impl): packet type, then for
PUBLISH the dup bit, two qos bits and retain bit, otherwise the four
control flags; then the remaining length. -/
def FixedHeaderDecoder.decode (r : BitReader) :
    Res (FixedHeader × BitReader) :=
  match FixedHeaderDecoder.read_packet_type r with
  | .err e => .err e
  | .panicked => .panicked
  | .ok (packet_type, r1) =>
      match packet_type with
      | .PUBLISH =>
          match Decoder.read_bool r1 with
          | .error err => .err (.DupFlag err)
          | .ok (dup_flag, r2) =>
              match Decoder.read_u8 2 r2 with
              | .error err => .err (.QoSLevel err)
              | .ok (qos_level_raw, r3) =>
                  match QoSLevel.from_u8 qos_level_raw with
                  | none => .err (.QoSLevel .InvalidData)
                  | some qos_level =>
                      match Decoder.read_bool r3 with
                      | .error err => .err (.RetainFlag err)
                      | .ok (retain, r4) =>
                          match FixedHeaderDecoder.read_remaining_length r4 with
                          | .err e => .err e
                          | .panicked => .panicked
                          | .ok (remaining_length, r5) =>
                              .ok (FixedHeader.from_publish dup_flag qos_level
                                retain remaining_length, r5)
      | _ =>
          match FixedHeaderDecoder.read_control_flags r1 with
          | .err e => .err e
          | .panicked => .panicked
          | .ok (control_flags, r2) =>
              match FixedHeaderDecoder.read_remaining_length r2 with
              | .err e => .err e
              | .panicked => .panicked
              | .ok (remaining_length, r3) =>
                  .ok (FixedHeader.new packet_type control_flags
                    remaining_length, r3)

/-! ## The TCP read half model

Reads deliver the pending bytes in order; once they are exhausted
every further read fails with the stream's error kind (a clean
end-of-stream surfaces as UnexpectedEof from read_u8). -/

/-- The std::io::ErrorKind values the source distinguishes, plus
representatives of the catch-all arm. -/
inductive IOErrorKind where
  | UnexpectedEof
  | ConnectionAborted
  | ConnectionRefused
  | ConnectionReset
  | WouldBlock
  | TimedOut
  | PermissionDenied
  | Other
deriving DecidableEq, Repr

/-- A TCP read half: pending bytes, then the failure kind. -/
structure ByteStream where
  bytes : List Nat
  fail : IOErrorKind
deriving DecidableEq, Repr

/-- AsyncReadExt::read_u8 on the stream. -/
def ByteStream.read_u8 (s : ByteStream) :
    Except IOErrorKind (Nat × ByteStream) :=
  match s.bytes with
  | [] => .error s.fail
  | b :: rest => .ok (b % 256, ⟨rest, s.fail⟩)

/-- The loop of FixedHeaderDecoder::read_variable_byte_integer_as_buf:
collect the raw bytes of the remaining-length integer from the stream.
Any stream read failure becomes VariableByteInteger/InvalidData. Fuel
as in read_vbi_aux; the fuel-zero arm is unreachable from fuel 5. -/
def read_vbi_buf_aux (fuel multiplier : Nat) (consumed_bytes : List Nat)
    (s : ByteStream) : Res (List Nat × ByteStream) :=
  match fuel with
  | 0 => .panicked
  | fuel + 1 =>
      match s.read_u8 with
      | .error _ => .err (.VariableByteInteger .InvalidData)
      | .ok (encoded_byte, s2) =>
          let consumed2 := consumed_bytes ++ [encoded_byte]
          if 128 * 128 * 128 < multiplier then
            .err (.VariableByteInteger
              (.ExceededMaxValue multiplier (128 * 128 * 128)))
          else if encoded_byte &&& 128 == 0 then
            .ok (consumed2, s2)
          else
            read_vbi_buf_aux fuel (multiplier * 128) consumed2 s2

/-- FixedHeaderDecoder::read_variable_byte_integer_as_buf. -/
def FixedHeaderDecoder.read_variable_byte_integer_as_buf (s : ByteStream) :
    Res (List Nat × ByteStream) :=
  read_vbi_buf_aux 5 1 [] s

/-- FixedHeaderDecoder::decode_from_stream: read the first byte (a
failure there is classified: end-of-file and the three connection
kinds mean the peer closed, anything else is an I/O error), then the
remaining-length bytes, then bit-decode the collected buffer. -/
def FixedHeaderDecoder.decode_from_stream (s : ByteStream) :
    Res (FixedHeader × ByteStream) :=
  match s.read_u8 with
  | .error k =>
      match k with
      | .UnexpectedEof => .err (.PacketType .ConnectionError)
      | .ConnectionAborted => .err (.PacketType .ConnectionError)
      | .ConnectionRefused => .err (.PacketType .ConnectionError)
      | .ConnectionReset => .err (.PacketType .ConnectionError)
      | _ => .err (.PacketType .IOError)
  | .ok (first_byte, s1) =>
      match FixedHeaderDecoder.read_variable_byte_integer_as_buf s1 with
      | .err err => .err (.RemainingLength err.cause)
      | .panicked => .panicked
      | .ok (remaining_length_buffer, s2) =>
          let buffer := first_byte :: remaining_length_buffer
          match FixedHeaderDecoder.decode (BitReader.new buffer) with
          | .err e => .err e
          | .panicked => .panicked
          | .ok (fixed_header, _) => .ok (fixed_header, s2)

/-! ## Property decoder (serdes/deserializer/property_decoder.rs) -/

/-- PropertyDecoder::read_property: identifier-directed value read.
Fixed-size reads wrap failures in Property; string, binary and
variable-byte-integer reads propagate their own errors. Note the
ServerKeepAlive arm (19) asks read_u8 for 16 bits, which the bitreader
always rejects with TooManyBitsForType. -/
def PropertyDecoder.read_property (identifier : Nat) (r : BitReader) :
    Res (Option Property × BitReader) :=
  match identifier with
  | 0 =>
      match Decoder.read_variable_byte_integer r with
      | .err e => .err e
      | .panicked => .panicked
      | .ok (value, r2) => .ok (some (.SubscriptionIdentifier value), r2)
  | 1 =>
      match Decoder.read_u8 8 r with
      | .error err => .err (.Property err)
      | .ok (value, r2) => .ok (some (.PayloadFormatIndicator value), r2)
  | 2 =>
      match Decoder.read_u32 32 r with
      | .error err => .err (.Property err)
      | .ok (value, r2) => .ok (some (.MessageExpiryInterval value), r2)
  | 3 =>
      match Decoder.read_utf8_string r with
      | .err e => .err e
      | .panicked => .panicked
      | .ok (value, r2) => .ok (some (.ContentType value), r2)
  | 8 =>
      match Decoder.read_utf8_string r with
      | .err e => .err e
      | .panicked => .panicked
      | .ok (value, r2) => .ok (some (.ResponseTopic value), r2)
  | 9 =>
      match Decoder.read_binary_data r with
      | .err e => .err e
      | .panicked => .panicked
      | .ok (value, r2) => .ok (some (.CorrelationData value), r2)
  | 11 =>
      match Decoder.read_variable_byte_integer r with
      | .err e => .err e
      | .panicked => .panicked
      | .ok (value, r2) => .ok (some (.SubscriptionIdentifier value), r2)
  | 17 =>
      match Decoder.read_u32 32 r with
      | .error err => .err (.Property err)
      | .ok (value, r2) => .ok (some (.SessionExpiryInterval value), r2)
  | 18 =>
      match Decoder.read_utf8_string r with
      | .err e => .err e
      | .panicked => .panicked
      | .ok (value, r2) => .ok (some (.AssignedClientIdentifier value), r2)
  | 19 =>
      match Decoder.read_u8 16 r with
      | .error err => .err (.Property err)
      | .ok (value, r2) => .ok (some (.ServerKeepAlive value), r2)
  | 21 =>
      match Decoder.read_utf8_string r with
      | .err e => .err e
      | .panicked => .panicked
      | .ok (value, r2) => .ok (some (.AuthenticationMethod value), r2)
  | 22 =>
      match Decoder.read_binary_data r with
      | .err e => .err e
      | .panicked => .panicked
      | .ok (value, r2) => .ok (some (.AuthenticationData value), r2)
  | 23 =>
      match Decoder.read_u8 8 r with
      | .error err => .err (.Property err)
      | .ok (value, r2) => .ok (some (.RequestProblemInformation value), r2)
  | 24 =>
      match Decoder.read_u32 32 r with
      | .error err => .err (.Property err)
      | .ok (value, r2) => .ok (some (.WillDelayInterval value), r2)
  | 25 =>
      match Decoder.read_u8 8 r with
      | .error err => .err (.Property err)
      | .ok (value, r2) => .ok (some (.RequestResponseInformation value), r2)
  | 26 =>
      match Decoder.read_utf8_string r with
      | .err e => .err e
      | .panicked => .panicked
      | .ok (value, r2) => .ok (some (.ResponseInformation value), r2)
  | 28 =>
      match Decoder.read_utf8_string r with
      | .err e => .err e
      | .panicked => .panicked
      | .ok (value, r2) => .ok (some (.ServerReference value), r2)
  | 31 =>
      match Decoder.read_utf8_string r with
      | .err e => .err e
      | .panicked => .panicked
      | .ok (value, r2) => .ok (some (.ReasonString value), r2)
  | 33 =>
      match Decoder.read_u16 16 r with
      | .error err => .err (.Property err)
      | .ok (value, r2) => .ok (some (.ReceiveMaximum value), r2)
  | 34 =>
      match Decoder.read_u16 16 r with
      | .error err => .err (.Property err)
      | .ok (value, r2) => .ok (some (.TopicAliasMaximum value), r2)
  | 35 =>
      match Decoder.read_u16 16 r with
      | .error err => .err (.Property err)
      | .ok (value, r2) => .ok (some (.TopicAlias value), r2)
  | 36 =>
      match Decoder.read_u8 8 r with
      | .error err => .err (.Property err)
      | .ok (value, r2) => .ok (some (.MaximumQoS value), r2)
  | 37 =>
      match Decoder.read_u8 8 r with
      | .error err => .err (.Property err)
      | .ok (value, r2) => .ok (some (.RetainAvailable value), r2)
  | 38 =>
      match Decoder.read_utf8_string r with
      | .err e => .err e
      | .panicked => .panicked
      | .ok (key, r2) =>
          match Decoder.read_utf8_string r2 with
          | .err e => .err e
          | .panicked => .panicked
          | .ok (value, r3) => .ok (some (.UserProperty key value), r3)
  | 39 =>
      match Decoder.read_u32 32 r with
      | .error err => .err (.Property err)
      | .ok (value, r2) => .ok (some (.MaximumPacketSize value), r2)
  | 40 =>
      match Decoder.read_u8 8 r with
      | .error err => .err (.Property err)
      | .ok (value, r2) => .ok (some (.WildcardSubscriptionAvailable value), r2)
  | 41 =>
      match Decoder.read_u8 8 r with
      | .error err => .err (.Property err)
      | .ok (value, r2) =>
          .ok (some (.SubscriptionIdentifierAvailable value), r2)
  | 42 =>
      match Decoder.read_u8 8 r with
      | .error err => .err (.Property err)
      | .ok (value, r2) => .ok (some (.SharedSubscriptionAvailable value), r2)
  | _ => .err (.UnknownProperty .InvalidData)

/-- PropertyDecoder::read_property_length. -/
def PropertyDecoder.read_property_length (r : BitReader) :
    Res (Nat × BitReader) :=
  match Decoder.read_variable_byte_integer r with
  | .err err => .err (.PropertyLength err.cause)
  | .panicked => .panicked
  | .ok (property_length, r2) => .ok (property_length, r2)

/-- The while loop of PropertyDecoder::decode: each pass reads one
identifier and value and subtracts the consumed byte count from the
declared size; a value that overruns the declared size underflows the
u64 subtraction in the source (a debug-build panic). Every pass
consumes at least one byte, so fuel one above the declared size never
exhausts. -/
def property_decode_loop (fuel : Nat) (properties_byte_size : Nat)
    (properties : List Property) (r : BitReader) :
    Res (List Property × BitReader) :=
  match fuel with
  | 0 => .panicked
  | fuel + 1 =>
      if properties_byte_size = 0 then .ok (properties, r)
      else
        let properties_start := r.pos
        match Decoder.read_variable_byte_integer r with
        | .err e => .err e
        | .panicked => .panicked
        | .ok (identifier, r2) =>
            match PropertyDecoder.read_property identifier r2 with
            | .err e => .err e
            | .panicked => .panicked
            | .ok (property, r3) =>
                let properties2 :=
                  match property with
                  | some p => properties ++ [p]
                  | none => properties
                let consumed_bytes := (r3.pos - properties_start) / 8
                if properties_byte_size < consumed_bytes then .panicked
                else
                  property_decode_loop fuel
                    (properties_byte_size - consumed_bytes) properties2 r3

/-- PropertyDecoder::decode: a variable-byte-integer byte count, then
the loop. -/
def PropertyDecoder.decode (r : BitReader) :
    Res (List Property × BitReader) :=
  match PropertyDecoder.read_property_length r with
  | .err e => .err e
  | .panicked => .panicked
  | .ok (properties_byte_size, r2) =>
      property_decode_loop (properties_byte_size + 1) properties_byte_size
        [] r2

/-! ## Variable-header decoder
(serdes/deserializer/variable_header_decoder.rs) -/

/-- VariableHeaderDecoder::read_packet_identifier. -/
def VariableHeaderDecoder.read_packet_identifier (r : BitReader) :
    Res (Nat × BitReader) :=
  match Decoder.read_u16 16 r with
  | .error err => .err (.PacketIdentifier err)
  | .ok (packet_identifier, r2) => .ok (packet_identifier, r2)

/-- VariableHeaderDecoder::read_reason_code. -/
def VariableHeaderDecoder.read_reason_code (r : BitReader) :
    Res (ReasonCode × BitReader) :=
  match Decoder.read_u8 8 r with
  | .error err => .err (.ReasonCode err)
  | .ok (value, r2) =>
      match ReasonCode.from_u8 value with
      | some reason_code => .ok (reason_code, r2)
      | none => .err (.ReasonCode .InvalidData)

/-- VariableHeaderDecoder::read_connect_flags: username, password,
will-retain (whose error is wrapped as UsernameFlag in the source),
two will-qos bits, will, clean-start, reserved, MSB to LSB. -/
def VariableHeaderDecoder.read_connect_flags (r : BitReader) :
    Res (ConnectFlags × BitReader) :=
  match Decoder.read_bool r with
  | .error err => .err (.UsernameFlag err)
  | .ok (username_flag, r1) =>
      match Decoder.read_bool r1 with
      | .error err => .err (.PasswordFlag err)
      | .ok (password_flag, r2) =>
          match Decoder.read_bool r2 with
          | .error err => .err (.UsernameFlag err)
          | .ok (will_retain_flag, r3) =>
              match Decoder.read_u8 2 r3 with
              | .error err => .err (.WillQoSFlag err)
              | .ok (will_qos_raw, r4) =>
                  match QoSLevel.from_u8 will_qos_raw with
                  | none => .err (.WillQoSFlag .InvalidData)
                  | some will_qos =>
                      match Decoder.read_bool r4 with
                      | .error err => .err (.WillFlag err)
                      | .ok (will_flag, r5) =>
                          match Decoder.read_bool r5 with
                          | .error err => .err (.CleanStartFlag err)
                          | .ok (clean_start_flag, r6) =>
                              match Decoder.read_bool r6 with
                              | .error err => .err (.ReservedFlag err)
                              | .ok (reserved_flag, r7) =>
                                  .ok (⟨username_flag, password_flag,
                                    will_retain_flag, will_qos, will_flag,
                                    clean_start_flag, reserved_flag⟩, r7)

/-- VariableHeaderDecoder::decode_with_header. CONNACK, SUBACK,
UNSUBACK, PINGREQ, PINGRESP, AUTH and RESERVED decode no variable
header. The PUBACK-family arms drop the decoded properties: the
constructor receives an empty vector. -/
def VariableHeaderDecoder.decode_with_header (fixed_header : FixedHeader)
    (r : BitReader) : Res (Option VariableHeader × BitReader) :=
  match fixed_header.packet_type with
  | .RESERVED => .ok (none, r)
  | .CONNECT =>
      match Decoder.read_utf8_string r with
      | .err e => .err e
      | .panicked => .panicked
      | .ok (protocol_name, r1) =>
          match Decoder.read_u8 8 r1 with
          | .error err => .err (.ProtocolVersion err)
          | .ok (protocol_version, r2) =>
              match VariableHeaderDecoder.read_connect_flags r2 with
              | .err e => .err e
              | .panicked => .panicked
              | .ok (connect_flags, r3) =>
                  match Decoder.read_u16 16 r3 with
                  | .error err => .err (.KeepAlive err)
                  | .ok (keep_alive, r4) =>
                      match PropertyDecoder.decode r4 with
                      | .err e => .err e
                      | .panicked => .panicked
                      | .ok (properties, r5) =>
                          .ok (some (VariableHeader.from_connect
                            (some protocol_name) (some protocol_version)
                            (some connect_flags) (some keep_alive)
                            properties), r5)
  | .CONNACK => .ok (none, r)
  | .PUBLISH =>
      match Decoder.read_utf8_string r with
      | .err e => .err (.TopicName e.cause)
      | .panicked => .panicked
      | .ok (topic_name, r1) =>
          match fixed_header.qos_level with
          | none => .panicked
          | some qos =>
              match (match qos with
                     | .AtMostOnce => Res.ok ((none : Option Nat), r1)
                     | _ =>
                         match VariableHeaderDecoder.read_packet_identifier r1 with
                         | .err e => Res.err e
                         | .panicked => Res.panicked
                         | .ok (pid, r2) => Res.ok (some pid, r2)) with
              | .err e => .err e
              | .panicked => .panicked
              | .ok (packet_identifier, r2) =>
                  match PropertyDecoder.decode r2 with
                  | .err e => .err e
                  | .panicked => .panicked
                  | .ok (properties, r3) =>
                      .ok (some (VariableHeader.from_publish packet_identifier
                        (some topic_name) properties), r3)
  | .PUBACK =>
      match VariableHeaderDecoder.read_packet_identifier r with
      | .err e => .err e
      | .panicked => .panicked
      | .ok (packet_identifier, r1) =>
          match (match decide (8 < r1.remaining) with
                 | true =>
                     match VariableHeaderDecoder.read_reason_code r1 with
                     | .err e => Res.err e
                     | .panicked => Res.panicked
                     | .ok (rc, r2) => Res.ok (some rc, r2)
                 | false => Res.ok ((none : Option ReasonCode), r1)) with
          | .err e => .err e
          | .panicked => .panicked
          | .ok (reason_code, r2) =>
              match (match decide (8 < r2.remaining) with
                     | true => PropertyDecoder.decode r2
                     | false => Res.ok ([], r2)) with
              | .err e => .err e
              | .panicked => .panicked
              | .ok (_, r3) =>
                  .ok (some (VariableHeader.from_pub_ack_rel_comp
                    (some packet_identifier) reason_code []), r3)
  | .PUBREC =>
      match VariableHeaderDecoder.read_packet_identifier r with
      | .err e => .err e
      | .panicked => .panicked
      | .ok (packet_identifier, r1) =>
          match (match decide (8 < r1.remaining) with
                 | true =>
                     match VariableHeaderDecoder.read_reason_code r1 with
                     | .err e => Res.err e
                     | .panicked => Res.panicked
                     | .ok (rc, r2) => Res.ok (some rc, r2)
                 | false => Res.ok ((none : Option ReasonCode), r1)) with
          | .err e => .err e
          | .panicked => .panicked
          | .ok (reason_code, r2) =>
              match (match decide (8 < r2.remaining) with
                     | true => PropertyDecoder.decode r2
                     | false => Res.ok ([], r2)) with
              | .err e => .err e
              | .panicked => .panicked
              | .ok (_, r3) =>
                  .ok (some (VariableHeader.from_pub_ack_rel_comp
                    (some packet_identifier) reason_code []), r3)
  | .PUBREL =>
      match VariableHeaderDecoder.read_packet_identifier r with
      | .err e => .err e
      | .panicked => .panicked
      | .ok (packet_identifier, r1) =>
          match (match decide (8 < r1.remaining) with
                 | true =>
                     match VariableHeaderDecoder.read_reason_code r1 with
                     | .err e => Res.err e
                     | .panicked => Res.panicked
                     | .ok (rc, r2) => Res.ok (some rc, r2)
                 | false => Res.ok ((none : Option ReasonCode), r1)) with
          | .err e => .err e
          | .panicked => .panicked
          | .ok (reason_code, r2) =>
              match (match decide (8 < r2.remaining) with
                     | true => PropertyDecoder.decode r2
                     | false => Res.ok ([], r2)) with
              | .err e => .err e
              | .panicked => .panicked
              | .ok (_, r3) =>
                  .ok (some (VariableHeader.from_pub_ack_rel_comp
                    (some packet_identifier) reason_code []), r3)
  | .PUBCOMP =>
      match VariableHeaderDecoder.read_packet_identifier r with
      | .err e => .err e
      | .panicked => .panicked
      | .ok (packet_identifier, r1) =>
          match (match decide (8 < r1.remaining) with
                 | true =>
                     match VariableHeaderDecoder.read_reason_code r1 with
                     | .err e => Res.err e
                     | .panicked => Res.panicked
                     | .ok (rc, r2) => Res.ok (some rc, r2)
                 | false => Res.ok ((none : Option ReasonCode), r1)) with
          | .err e => .err e
          | .panicked => .panicked
          | .ok (reason_code, r2) =>
              match (match decide (8 < r2.remaining) with
                     | true => PropertyDecoder.decode r2
                     | false => Res.ok ([], r2)) with
              | .err e => .err e
              | .panicked => .panicked
              | .ok (_, r3) =>
                  .ok (some (VariableHeader.from_pub_ack_rel_comp
                    (some packet_identifier) reason_code []), r3)
  | .SUBSCRIBE =>
      match VariableHeaderDecoder.read_packet_identifier r with
      | .err e => .err e
      | .panicked => .panicked
      | .ok (packet_identifier, r1) =>
          match PropertyDecoder.decode r1 with
          | .err e => .err e
          | .panicked => .panicked
          | .ok (properties, r2) =>
              .ok (some (VariableHeader.from_sub_unsub
                (some packet_identifier) properties), r2)
  | .SUBACK => .ok (none, r)
  | .UNSUBSCRIBE =>
      match VariableHeaderDecoder.read_packet_identifier r with
      | .err e => .err e
      | .panicked => .panicked
      | .ok (packet_identifier, r1) =>
          match PropertyDecoder.decode r1 with
          | .err e => .err e
          | .panicked => .panicked
          | .ok (properties, r2) =>
              .ok (some (VariableHeader.from_sub_unsub
                (some packet_identifier) properties), r2)
  | .UNSUBACK => .ok (none, r)
  | .PINGREQ => .ok (none, r)
  | .PINGRESP => .ok (none, r)
  | .DISCONNECT =>
      match VariableHeaderDecoder.read_reason_code r with
      | .err e => .err e
      | .panicked => .panicked
      | .ok (reason_code, r1) =>
          match PropertyDecoder.decode r1 with
          | .err e => .err e
          | .panicked => .panicked
          | .ok (properties, r2) =>
              .ok (some (VariableHeader.from_disconnect reason_code
                properties), r2)
  | .AUTH => .ok (none, r)

/-! ## Payload decoder (serdes/deserializer/payload_decoder.rs) -/

/-- PayloadDecoder::read_topic_path. -/
def PayloadDecoder.read_topic_path (r : BitReader) :
    Res (MqttStr × BitReader) :=
  match Decoder.read_utf8_string r with
  | .err e => .err (.TopicFilter e.cause)
  | .panicked => .panicked
  | .ok (topic_path, r2) => .ok (topic_path, r2)

/-- PayloadDecoder::read_topic_filter: path, two reserved bits, two
retain-handling bits, retain-as-published, no-local, two max-qos bits. -/
def PayloadDecoder.read_topic_filter (r : BitReader) :
    Res (TopicFilter × BitReader) :=
  match PayloadDecoder.read_topic_path r with
  | .err e => .err e
  | .panicked => .panicked
  | .ok (topic_filter, r1) =>
      match Decoder.read_booleans 2 r1 with
      | .error err => .err (.ReservedFlag err)
      | .ok (reserved_bits, r2) =>
          match Decoder.read_u8 2 r2 with
          | .error err => .err (.RetainHandling err)
          | .ok (retain_handling_raw, r3) =>
              match RetainHandling.from_u8 retain_handling_raw with
              | none =>
                  .err (.RetainHandling
                    (.ExceededMaxValue retain_handling_raw 2))
              | some retain_handling =>
                  match Decoder.read_bool r3 with
                  | .error err => .err (.RetainAsPublished err)
                  | .ok (retain_as_published, r4) =>
                      match Decoder.read_bool r4 with
                      | .error err => .err (.NoLocal err)
                      | .ok (no_local, r5) =>
                          match Decoder.read_u8 2 r5 with
                          | .error err => .err (.MaximumQoS err)
                          | .ok (qos_raw, r6) =>
                              match QoSLevel.from_u8 qos_raw with
                              | none =>
                                  .err (.MaximumQoS
                                    (.ExceededMaxValue qos_raw 2))
                              | some maximum_qos =>
                                  .ok (TopicFilter.from_subscribe topic_filter
                                    maximum_qos no_local retain_as_published
                                    retain_handling reserved_bits, r6)

/-- The SUBSCRIBE payload loop: topic filters until the reader is
empty. Every pass consumes at least one bit, so fuel one above the
remaining bit count never exhausts. -/
def read_topic_filters_loop (fuel : Nat) (acc : List TopicFilter)
    (r : BitReader) : Res (List TopicFilter × BitReader) :=
  match fuel with
  | 0 => .panicked
  | fuel + 1 =>
      if r.remaining = 0 then .ok (acc, r)
      else
        match PayloadDecoder.read_topic_filter r with
        | .err e => .err e
        | .panicked => .panicked
        | .ok (topic_filter, r2) =>
            read_topic_filters_loop fuel (acc ++ [topic_filter]) r2

/-- The UNSUBSCRIBE payload loop: topic paths until the reader is
empty. -/
def read_topic_paths_loop (fuel : Nat) (acc : List TopicFilter)
    (r : BitReader) : Res (List TopicFilter × BitReader) :=
  match fuel with
  | 0 => .panicked
  | fuel + 1 =>
      if r.remaining = 0 then .ok (acc, r)
      else
        match PayloadDecoder.read_topic_path r with
        | .err e => .err e
        | .panicked => .panicked
        | .ok (topic_path, r2) =>
            read_topic_paths_loop fuel
              (acc ++ [TopicFilter.from_unsubscribe topic_path]) r2

/-- PayloadDecoder::decode: per packet type on the rest of the body.
The PUBLISH arm takes the remaining whole bytes verbatim; the CONNECT
arm consults the connect flags of the already-decoded variable header
(its absence panics in the source). -/
def PayloadDecoder.decode (packet_type : ControlPacketType)
    (variable_header : Option VariableHeader) (r : BitReader) :
    Res (Option Payload × BitReader) :=
  match packet_type with
  | .RESERVED => .ok (none, r)
  | .CONNECT =>
      match Decoder.read_utf8_string r with
      | .err e => .err e
      | .panicked => .panicked
      | .ok (client_id, r1) =>
          match variable_header with
          | none => .panicked
          | some vh =>
              match vh.connect_flags with
              | none => .panicked
              | some connect_flags =>
                  match (match connect_flags.will_flag with
                         | true =>
                             match PropertyDecoder.decode r1 with
                             | .err e => Res.err e
                             | .panicked => Res.panicked
                             | .ok (will_properties, r2) =>
                                 match Decoder.read_utf8_string r2 with
                                 | .err e => Res.err e
                                 | .panicked => Res.panicked
                                 | .ok (will_topic, r3) =>
                                     match Decoder.read_binary_data r3 with
                                     | .err e => Res.err e
                                     | .panicked => Res.panicked
                                     | .ok (will_payload, r4) =>
                                         Res.ok ((some will_properties,
                                           some will_topic,
                                           some will_payload), r4)
                         | false =>
                             Res.ok (((none : Option (List Property)),
                               (none : Option MqttStr),
                               (none : Option (List Nat))), r1)) with
                  | .err e => .err e
                  | .panicked => .panicked
                  | .ok (will, r2) =>
                      match (match connect_flags.username_flag with
                             | true =>
                                 match Decoder.read_utf8_string r2 with
                                 | .err e => Res.err e
                                 | .panicked => Res.panicked
                                 | .ok (u, r3) => Res.ok (some u, r3)
                             | false =>
                                 Res.ok ((none : Option MqttStr), r2)) with
                      | .err e => .err e
                      | .panicked => .panicked
                      | .ok (username, r3) =>
                          match (match connect_flags.password_flag with
                                 | true =>
                                     match Decoder.read_utf8_string r3 with
                                     | .err e => Res.err e
                                     | .panicked => Res.panicked
                                     | .ok (p, r4) => Res.ok (some p, r4)
                                 | false =>
                                     Res.ok ((none : Option MqttStr), r3)) with
                          | .err e => .err e
                          | .panicked => .panicked
                          | .ok (password, r4) =>
                              .ok (some (Payload.from_connect (some client_id)
                                will.1 will.2.1 will.2.2 username password),
                                r4)
  | .CONNACK => .ok (none, r)
  | .PUBLISH =>
      match read_bytes_aux (r.remaining / 8) r with
      | .error err => .err (.Payload err)
      | .ok (data, r2) => .ok (some (Payload.from_publish (some data)), r2)
  | .PUBACK => .ok (none, r)
  | .PUBREC => .ok (none, r)
  | .PUBREL => .ok (none, r)
  | .PUBCOMP => .ok (none, r)
  | .SUBSCRIBE =>
      match read_topic_filters_loop (r.remaining + 1) [] r with
      | .err e => .err e
      | .panicked => .panicked
      | .ok (topic_filters, r2) =>
          .ok (some (Payload.from_sub_unsub topic_filters), r2)
  | .SUBACK => .ok (none, r)
  | .UNSUBSCRIBE =>
      match read_topic_paths_loop (r.remaining + 1) [] r with
      | .err e => .err e
      | .panicked => .panicked
      | .ok (topic_filters, r2) =>
          .ok (some (Payload.from_sub_unsub topic_filters), r2)
  | .UNSUBACK => .ok (none, r)
  | .PINGREQ => .ok (none, r)
  | .PINGRESP => .ok (none, r)
  | .DISCONNECT => .ok (none, r)
  | .AUTH => .ok (none, r)

/-! ## Packet decoder (serdes/mqtt_decoder.rs) -/

/-- MqttDecoder::decode_packet: fixed header from the stream; when the
remaining length is positive, one read of up to that many body bytes
(our stream model delivers whatever is pending), then variable header
and payload from the body buffer. -/
def MqttDecoder.decode_packet (s : ByteStream) : Res ControlPacket :=
  match FixedHeaderDecoder.decode_from_stream s with
  | .err e => .err e
  | .panicked => .panicked
  | .ok (fixed_header, s2) =>
      if 0 < fixed_header.remaining_length then
        let buffer := s2.bytes.take fixed_header.remaining_length
        let r := BitReader.new buffer
        match VariableHeaderDecoder.decode_with_header fixed_header r with
        | .err e => .err e
        | .panicked => .panicked
        | .ok (variable_header, r2) =>
            match PayloadDecoder.decode fixed_header.packet_type
                variable_header r2 with
            | .err e => .err e
            | .panicked => .panicked
            | .ok (payload, _) =>
                .ok (ControlPacket.new fixed_header variable_header payload)
      else
        .ok (ControlPacket.new fixed_header none none)

/-! ## Byte-level reading lemmas -/

theorem bytesToBits_cons (b : Nat) (bs : List Nat) :
    bytesToBits (b :: bs) = natToBits 8 b ++ bytesToBits bs := by
  simp [bytesToBits]

theorem bytesToBits_nil : bytesToBits [] = [] := rfl

theorem natToBits_split (w1 w2 x : Nat) :
    natToBits (w1 + w2) x = natToBits w1 (x / 2 ^ w2) ++ natToBits w2 x := by
  induction w2 generalizing x with
  | zero => simp [natToBits]
  | succ w2 ih =>
      rw [show w1 + (w2 + 1) = (w1 + w2) + 1 from rfl]
      rw [show natToBits ((w1 + w2) + 1) x
          = natToBits (w1 + w2) (x / 2) ++ [x % 2 == 1] from rfl]
      rw [ih (x / 2)]
      rw [show natToBits (w2 + 1) x
          = natToBits w2 (x / 2) ++ [x % 2 == 1] from rfl]
      rw [Nat.div_div_eq_div_mul]
      rw [show (2 : Nat) * 2 ^ w2 = 2 ^ (w2 + 1) from by rw [pow_succ]; ring]
      simp

theorem readBits_exact (n : Nat) (l rest : List Bool) (p L : Nat)
    (h : l.length = n) :
    BitReader.readBits n ⟨l ++ rest, p, L⟩
      = .ok (bitsToNat l, ⟨rest, p + n, L⟩) := by
  subst h
  simp only [BitReader.readBits, List.length_append]
  rw [if_neg (by omega)]
  rw [List.take_left, List.drop_left]

theorem read_u8_byte (c : Nat) (rest : List Nat) (p L : Nat) :
    Decoder.read_u8 8 ⟨bytesToBits (c :: rest), p, L⟩
      = .ok (c % 256, ⟨bytesToBits rest, p + 8, L⟩) := by
  simp only [Decoder.read_u8]
  rw [if_neg (by omega)]
  rw [bytesToBits_cons]
  rw [readBits_exact 8 _ _ _ _ (natToBits_length 8 c)]
  rw [bitsToNat_natToBits]
  norm_num

theorem read_u16_bytes (a b : Nat) (rest : List Nat) (p L : Nat) :
    Decoder.read_u16 16 ⟨bytesToBits (a :: b :: rest), p, L⟩
      = .ok ((a % 256) * 256 + b % 256, ⟨bytesToBits rest, p + 16, L⟩) := by
  simp only [Decoder.read_u16]
  rw [if_neg (by omega)]
  rw [bytesToBits_cons, bytesToBits_cons, ← List.append_assoc]
  rw [readBits_exact 16 _ _ _ _
    (by rw [List.length_append, natToBits_length, natToBits_length])]
  rw [bitsToNat_append, bitsToNat_natToBits, bitsToNat_natToBits,
    natToBits_length]
  norm_num

/-- Bitwise facts on bytes, settled by finite check. -/
theorem land127_of_lt (b : Nat) (h : b < 128) : b &&& 127 = b := by
  revert h
  revert b
  decide

theorem land127_cont (b : Nat) (h : b < 128) : (b + 128) &&& 127 = b := by
  revert h
  revert b
  decide

theorem land128_end (b : Nat) (h : b < 128) : (b &&& 128 == 0) = true := by
  revert h
  revert b
  decide

theorem land128_cont (b : Nat) (h : b < 128) :
    ((b + 128) &&& 128 == 0) = false := by
  revert h
  revert b
  decide

/-! ## Variable-byte-integer facts (claim C2) -/

theorem write_vbi_bytes_last (n : Nat) (h : n < 128) :
    write_vbi_bytes n = [n] := by
  rw [write_vbi_bytes]
  rw [dif_neg (by omega)]
  rw [Nat.mod_eq_of_lt h]

theorem lor128_of_lt (b : Nat) (h : b < 128) : b ||| 128 = b + 128 := by
  revert h
  revert b
  decide

theorem write_vbi_bytes_cont (n : Nat) (h : 128 ≤ n) :
    write_vbi_bytes n = (n % 128 + 128) :: write_vbi_bytes (n / 128) := by
  rw [write_vbi_bytes]
  rw [dif_pos (show 0 < n / 128 from by omega)]
  rw [lor128_of_lt (n % 128) (Nat.mod_lt n (by omega))]

theorem read_vbi_aux_step_cont (fuel multiplier result b : Nat)
    (rest : List Nat) (p L : Nat) (hb : b < 128)
    (hm : multiplier ≤ 128 * 128 * 128) :
    read_vbi_aux (fuel + 1) multiplier result
        ⟨bytesToBits ((b + 128) :: rest), p, L⟩
      = read_vbi_aux fuel (multiplier * 128) (result + b * multiplier)
          ⟨bytesToBits rest, p + 8, L⟩ := by
  rw [show read_vbi_aux (fuel + 1) multiplier result
        ⟨bytesToBits ((b + 128) :: rest), p, L⟩
      = (match Decoder.read_u8 8 ⟨bytesToBits ((b + 128) :: rest), p, L⟩ with
         | .error err => .err (.VariableByteInteger err)
         | .ok (encoded_byte, r2) =>
             let result2 := result + (encoded_byte &&& 127) * multiplier
             if 128 * 128 * 128 < multiplier then
               .err (.VariableByteInteger
                 (.ExceededMaxValue multiplier (128 * 128 * 128)))
             else if encoded_byte &&& 128 == 0 then
               .ok (result2, r2)
             else
               read_vbi_aux fuel (multiplier * 128) result2 r2) from rfl]
  rw [read_u8_byte]
  rw [Nat.mod_eq_of_lt (by omega)]
  simp only [land127_cont b hb, land128_cont b hb]
  rw [if_neg (by omega)]
  simp

theorem read_vbi_aux_step_end (fuel multiplier result b : Nat)
    (rest : List Nat) (p L : Nat) (hb : b < 128)
    (hm : multiplier ≤ 128 * 128 * 128) :
    read_vbi_aux (fuel + 1) multiplier result ⟨bytesToBits (b :: rest), p, L⟩
      = .ok (result + b * multiplier, ⟨bytesToBits rest, p + 8, L⟩) := by
  rw [show read_vbi_aux (fuel + 1) multiplier result
        ⟨bytesToBits (b :: rest), p, L⟩
      = (match Decoder.read_u8 8 ⟨bytesToBits (b :: rest), p, L⟩ with
         | .error err => .err (.VariableByteInteger err)
         | .ok (encoded_byte, r2) =>
             let result2 := result + (encoded_byte &&& 127) * multiplier
             if 128 * 128 * 128 < multiplier then
               .err (.VariableByteInteger
                 (.ExceededMaxValue multiplier (128 * 128 * 128)))
             else if encoded_byte &&& 128 == 0 then
               .ok (result2, r2)
             else
               read_vbi_aux fuel (multiplier * 128) result2 r2) from rfl]
  rw [read_u8_byte]
  rw [Nat.mod_eq_of_lt (by omega)]
  simp only [land127_of_lt b hb, land128_end b hb]
  rw [if_neg (by omega)]
  simp

theorem read_vbi_aux_step_overflow (fuel multiplier result c : Nat)
    (rest : List Nat) (p L : Nat)
    (hm : 128 * 128 * 128 < multiplier) :
    read_vbi_aux (fuel + 1) multiplier result
        ⟨bytesToBits (c :: rest), p, L⟩
      = .err (.VariableByteInteger
          (.ExceededMaxValue multiplier (128 * 128 * 128))) := by
  rw [show read_vbi_aux (fuel + 1) multiplier result
        ⟨bytesToBits (c :: rest), p, L⟩
      = (match Decoder.read_u8 8 ⟨bytesToBits (c :: rest), p, L⟩ with
         | .error err => .err (.VariableByteInteger err)
         | .ok (encoded_byte, r2) =>
             let result2 := result + (encoded_byte &&& 127) * multiplier
             if 128 * 128 * 128 < multiplier then
               .err (.VariableByteInteger
                 (.ExceededMaxValue multiplier (128 * 128 * 128)))
             else if encoded_byte &&& 128 == 0 then
               .ok (result2, r2)
             else
               read_vbi_aux fuel (multiplier * 128) result2 r2) from rfl]
  rw [read_u8_byte]
  simp only [if_pos hm]

/-- Decoding the encoder output restores the value, for every value
below 2 to the 28. -/
theorem read_write_vbi (n : Nat) (h : n < 268435456) (rest : List Nat)
    (p L : Nat) :
    read_vbi_aux 5 1 0 ⟨bytesToBits (write_vbi_bytes n ++ rest), p, L⟩
      = .ok (n, ⟨bytesToBits rest,
          p + 8 * (write_vbi_bytes n).length, L⟩) := by
  by_cases h1 : n < 128
  · rw [write_vbi_bytes_last n h1]
    rw [show ([n] ++ rest : List Nat) = n :: rest from rfl]
    rw [read_vbi_aux_step_end 4 1 0 n rest p L h1 (by omega)]
    norm_num
  · by_cases h2 : n < 16384
    · rw [write_vbi_bytes_cont n (by omega)]
      rw [write_vbi_bytes_last (n / 128) (by omega)]
      rw [show ((n % 128 + 128) :: [n / 128] ++ rest : List Nat)
          = (n % 128 + 128) :: (n / 128) :: rest from rfl]
      rw [read_vbi_aux_step_cont 4 1 0 (n % 128) _ p L (by omega) (by omega)]
      rw [read_vbi_aux_step_end 3 128 (0 + n % 128 * 1) (n / 128) rest _ L
        (by omega) (by omega)]
      have hval : 0 + n % 128 * 1 + n / 128 * 128 = n := by omega
      rw [hval]
      simp only [List.length_cons, List.length_nil]
    · by_cases h3 : n < 2097152
      · rw [write_vbi_bytes_cont n (by omega)]
        rw [write_vbi_bytes_cont (n / 128) (by omega)]
        rw [write_vbi_bytes_last (n / 128 / 128) (by omega)]
        rw [show ((n % 128 + 128) :: ((n / 128 % 128 + 128)
              :: [n / 128 / 128]) ++ rest : List Nat)
            = (n % 128 + 128) :: (n / 128 % 128 + 128)
              :: (n / 128 / 128) :: rest from rfl]
        rw [read_vbi_aux_step_cont 4 1 0 (n % 128) _ p L (by omega) (by omega)]
        rw [read_vbi_aux_step_cont 3 128 _ (n / 128 % 128) _ _ L (by omega)
          (by omega)]
        rw [read_vbi_aux_step_end 2 (128 * 128) _ (n / 128 / 128) rest _ L
          (by omega) (by omega)]
        have hval : 0 + n % 128 * 1 + n / 128 % 128 * 128
            + n / 128 / 128 * (128 * 128) = n := by omega
        rw [hval]
        simp only [List.length_cons, List.length_nil]
      · rw [write_vbi_bytes_cont n (by omega)]
        rw [write_vbi_bytes_cont (n / 128) (by omega)]
        rw [write_vbi_bytes_cont (n / 128 / 128) (by omega)]
        rw [write_vbi_bytes_last (n / 128 / 128 / 128) (by omega)]
        rw [show ((n % 128 + 128) :: ((n / 128 % 128 + 128)
              :: ((n / 128 / 128 % 128 + 128) :: [n / 128 / 128 / 128]))
              ++ rest : List Nat)
            = (n % 128 + 128) :: (n / 128 % 128 + 128)
              :: (n / 128 / 128 % 128 + 128)
              :: (n / 128 / 128 / 128) :: rest from rfl]
        rw [read_vbi_aux_step_cont 4 1 0 (n % 128) _ p L (by omega) (by omega)]
        rw [read_vbi_aux_step_cont 3 128 _ (n / 128 % 128) _ _ L (by omega)
          (by omega)]
        rw [read_vbi_aux_step_cont 2 (128 * 128) _ (n / 128 / 128 % 128) _ _ L
          (by omega) (by omega)]
        rw [read_vbi_aux_step_end 1 (128 * 128 * 128) _ (n / 128 / 128 / 128)
          rest _ L (by omega) (by omega)]
        have hval : 0 + n % 128 * 1 + n / 128 % 128 * 128
            + n / 128 / 128 % 128 * (128 * 128)
            + n / 128 / 128 / 128 * (128 * 128 * 128) = n := by omega
        rw [hval]
        simp only [List.length_cons, List.length_nil]

/-- The encoded byte count per value range. -/
theorem write_vbi_bytes_length (n : Nat) :
    (write_vbi_bytes n).length
      = if n < 128 then 1 else if n < 16384 then 2
        else if n < 2097152 then 3 else if n < 268435456 then 4
        else 4 + (write_vbi_bytes (n / 128 / 128 / 128 / 128)).length := by
  by_cases h1 : n < 128
  · rw [write_vbi_bytes_last n h1]
    simp [h1]
  · by_cases h2 : n < 16384
    · rw [write_vbi_bytes_cont n (by omega),
        write_vbi_bytes_last (n / 128) (by omega)]
      simp [h1, h2]
    · by_cases h3 : n < 2097152
      · rw [write_vbi_bytes_cont n (by omega),
          write_vbi_bytes_cont (n / 128) (by omega),
          write_vbi_bytes_last (n / 128 / 128) (by omega)]
        simp [h1, h2, h3]
      · by_cases h4 : n < 268435456
        · rw [write_vbi_bytes_cont n (by omega),
            write_vbi_bytes_cont (n / 128) (by omega),
            write_vbi_bytes_cont (n / 128 / 128) (by omega),
            write_vbi_bytes_last (n / 128 / 128 / 128) (by omega)]
          simp [h1, h2, h3, h4]
        · rw [write_vbi_bytes_cont n (by omega),
            write_vbi_bytes_cont (n / 128) (by omega),
            write_vbi_bytes_cont (n / 128 / 128) (by omega),
            write_vbi_bytes_cont (n / 128 / 128 / 128) (by omega)]
          simp [h1, h2, h3, h4]
          omega

/-- A byte sequence denoting a value in MQTT variable-byte-integer
form: little-endian base-128 digits, the continuation bit set on every
byte except the last. -/
def vbiDenotes : List Nat → Option Nat
  | [] => none
  | [b] => if b < 128 then some b else none
  | b :: rest =>
      if 128 ≤ b ∧ b < 256 then
        (vbiDenotes rest).map (fun v => (b - 128) + 128 * v)
      else none

theorem vbiDenotes_lt (bs : List Nat) (n : Nat) (h : vbiDenotes bs = some n) :
    n < 128 ^ bs.length := by
  induction bs generalizing n with
  | nil => simp [vbiDenotes] at h
  | cons b rest ih =>
      rcases rest with _ | ⟨b2, rest2⟩
      · simp only [vbiDenotes] at h
        by_cases hb : b < 128
        · rw [if_pos hb] at h
          injection h with h2
          simp [List.length_cons]
          omega
        · rw [if_neg hb] at h
          cases h
      · simp only [vbiDenotes] at h
        by_cases hb : 128 ≤ b ∧ b < 256
        · rw [if_pos hb] at h
          rcases hv : vbiDenotes (b2 :: rest2) with _ | v
          · rw [hv] at h
            cases h
          · rw [hv] at h
            injection h with h2
            simp only at h2
            have hvlt := ih v hv
            have hpow : (128 : Nat) ^ (b :: b2 :: rest2).length
                = 128 ^ (b2 :: rest2).length * 128 := by
              rw [show (b :: b2 :: rest2).length
                  = (b2 :: rest2).length + 1 from rfl]
              rw [pow_succ]
            rw [hpow]
            omega
        · rw [if_neg hb] at h
          cases h

theorem vbiDenotes_head_lt (b : Nat) (rest : List Nat) (n : Nat)
    (h : vbiDenotes (b :: rest) = some n) : b < 256 := by
  rcases rest with _ | ⟨b2, rest2⟩
  · simp only [vbiDenotes] at h
    by_cases hb : b < 128
    · omega
    · rw [if_neg hb] at h
      cases h
  · simp only [vbiDenotes] at h
    by_cases hb : 128 ≤ b ∧ b < 256
    · omega
    · rw [if_neg hb] at h
      cases h

theorem vbiDenotes_cons_cont (b : Nat) (rest : List Nat) (n : Nat)
    (hne : rest ≠ []) (h : vbiDenotes (b :: rest) = some n) :
    128 ≤ b ∧ b < 256 ∧ ∃ v, vbiDenotes rest = some v := by
  rcases rest with _ | ⟨b2, rest2⟩
  · exact absurd rfl hne
  · simp only [vbiDenotes] at h
    by_cases hb : 128 ≤ b ∧ b < 256
    · refine ⟨hb.1, hb.2, ?_⟩
      rw [if_pos hb] at h
      rcases hv : vbiDenotes (b2 :: rest2) with _ | v
      · rw [hv] at h
        cases h
      · exact ⟨v, rfl⟩
    · rw [if_neg hb] at h
      cases h

/-- Decoding any byte sequence that denotes a value of at least 2 to
the 28 fails with ExceededMaxValue: such a sequence has at least five
bytes and the multiplier check fires on the fifth. -/
theorem read_vbi_rejects_large (bs : List Nat) (n : Nat)
    (hd : vbiDenotes bs = some n) (hn : 268435456 ≤ n) :
    Decoder.read_variable_byte_integer (BitReader.new bs)
      = .err (.VariableByteInteger (.ExceededMaxValue
          (128 * 128 * 128 * 128) (128 * 128 * 128))) := by
  have hlen : 5 ≤ bs.length := by
    by_contra hcon
    have hlt := vbiDenotes_lt bs n hd
    have : (128 : Nat) ^ bs.length ≤ 128 ^ 4 :=
      Nat.pow_le_pow_right (by omega) (by omega)
    have : (128 : Nat) ^ 4 = 268435456 := by norm_num
    omega
  rcases bs with _ | ⟨b0, bs1⟩
  · simp at hlen
  rcases bs1 with _ | ⟨b1, bs2⟩
  · simp at hlen
  rcases bs2 with _ | ⟨b2, bs3⟩
  · simp at hlen
  rcases bs3 with _ | ⟨b3, bs4⟩
  · simp at hlen
  rcases bs4 with _ | ⟨b4, bs5⟩
  · simp at hlen
  obtain ⟨hb0a, hb0b, v1, hv1⟩ :=
    vbiDenotes_cons_cont b0 _ n (by simp) hd
  obtain ⟨hb1a, hb1b, v2, hv2⟩ :=
    vbiDenotes_cons_cont b1 _ v1 (by simp) hv1
  obtain ⟨hb2a, hb2b, v3, hv3⟩ :=
    vbiDenotes_cons_cont b2 _ v2 (by simp) hv2
  obtain ⟨hb3a, hb3b, v4, hv4⟩ :=
    vbiDenotes_cons_cont b3 _ v3 (by simp) hv3
  show read_vbi_aux 5 1 0 ⟨bytesToBits (b0 :: b1 :: b2 :: b3 :: b4 :: bs5),
    0, (bytesToBits (b0 :: b1 :: b2 :: b3 :: b4 :: bs5)).length⟩ = _
  rw [show b0 = (b0 - 128) + 128 from by omega]
  rw [read_vbi_aux_step_cont 4 1 0 (b0 - 128) _ _ _ (by omega) (by omega)]
  rw [show b1 = (b1 - 128) + 128 from by omega]
  rw [read_vbi_aux_step_cont 3 128 _ (b1 - 128) _ _ _ (by omega) (by omega)]
  rw [show b2 = (b2 - 128) + 128 from by omega]
  rw [read_vbi_aux_step_cont 2 (1 * 128 * 128) _ (b2 - 128) _ _ _ (by omega)
    (by omega)]
  rw [show b3 = (b3 - 128) + 128 from by omega]
  rw [read_vbi_aux_step_cont 1 (1 * 128 * 128 * 128) _ (b3 - 128) _ _ _
    (by omega) (by omega)]
  rw [read_vbi_aux_step_overflow 0 (1 * 128 * 128 * 128 * 128) _ b4 bs5 _ _
    (by norm_num)]

/-- C2 counterexample: encoding a value of 2 to the 28, the smallest
value the claim says the encoder rejects, succeeds and produces five
bytes. -/
theorem C2_encode_accepts_large_counterexample :
    Encoder.write_variable_byte_integer 268435456
      = .ok [128, 128, 128, 128, 1] := by
  simp only [Encoder.write_variable_byte_integer]
  rw [write_vbi_bytes_cont 268435456 (by norm_num)]
  rw [show (268435456 : Nat) % 128 + 128 = 128 from by norm_num,
    show (268435456 : Nat) / 128 = 2097152 from by norm_num]
  rw [write_vbi_bytes_cont 2097152 (by norm_num)]
  rw [show (2097152 : Nat) % 128 + 128 = 128 from by norm_num,
    show (2097152 : Nat) / 128 = 16384 from by norm_num]
  rw [write_vbi_bytes_cont 16384 (by norm_num)]
  rw [show (16384 : Nat) % 128 + 128 = 128 from by norm_num,
    show (16384 : Nat) / 128 = 128 from by norm_num]
  rw [write_vbi_bytes_cont 128 (by norm_num)]
  rw [show (128 : Nat) % 128 + 128 = 128 from by norm_num,
    show (128 : Nat) / 128 = 1 from by norm_num]
  rw [write_vbi_bytes_last 1 (by norm_num)]

/-- C2 amended: decoding the encoding of any n below 2 to the 28
yields n back; the encoding is 1, 2, 3 or 4 bytes over the claimed
ranges; the encoder never fails (values of 2 to the 28 and above get
five or more bytes); and decoding any byte sequence denoting a value
of at least 2 to the 28 fails with ExceededMaxValue. -/
theorem C2_variable_byte_integer_codec :
    (∀ n : Nat, n < 268435456 →
      Decoder.read_variable_byte_integer (BitReader.new (write_vbi_bytes n))
        = .ok (n, ⟨[], 8 * (write_vbi_bytes n).length,
            (bytesToBits (write_vbi_bytes n)).length⟩)) ∧
    (∀ n : Nat, n < 268435456 →
      (write_vbi_bytes n).length
        = if n < 128 then 1 else if n < 16384 then 2
          else if n < 2097152 then 3 else 4) ∧
    (∀ n : Nat,
      Encoder.write_variable_byte_integer n = .ok (write_vbi_bytes n)) ∧
    (∀ n : Nat, 268435456 ≤ n → 5 ≤ (write_vbi_bytes n).length) ∧
    (∀ (bs : List Nat) (n : Nat), vbiDenotes bs = some n → 268435456 ≤ n →
      Decoder.read_variable_byte_integer (BitReader.new bs)
        = .err (.VariableByteInteger (.ExceededMaxValue
            (128 * 128 * 128 * 128) (128 * 128 * 128)))) := by
  refine ⟨?_, ?_, ?_, ?_, read_vbi_rejects_large⟩
  · intro n hn
    show read_vbi_aux 5 1 0 _ = _
    have hb : BitReader.new (write_vbi_bytes n)
        = ⟨bytesToBits (write_vbi_bytes n ++ []), 0,
            (bytesToBits (write_vbi_bytes n)).length⟩ := by
      simp [BitReader.new]
    rw [hb]
    rw [read_write_vbi n hn [] 0 _]
    rw [bytesToBits_nil]
    norm_num
  · intro n hn
    rw [write_vbi_bytes_length]
    by_cases h1 : n < 128
    · simp [h1]
    · by_cases h2 : n < 16384
      · simp [h1, h2]
      · by_cases h3 : n < 2097152
        · simp [h1, h2, h3]
        · simp [h1, h2, h3, hn]
  · intro n
    rfl
  · intro n hn
    have hpos : 1 ≤ (write_vbi_bytes (n / 128 / 128 / 128 / 128)).length := by
      rw [write_vbi_bytes]
      split
      · simp
      · simp
    rw [write_vbi_bytes_length]
    rw [if_neg (by omega), if_neg (by omega), if_neg (by omega),
      if_neg (by omega)]
    omega

/-- C2 witness: the amended statement evaluated at 300, at 2 to the
28, and at the five-byte sequence denoting 2 to the 28. -/
theorem C2_variable_byte_integer_codec_witness :
    (Decoder.read_variable_byte_integer (BitReader.new (write_vbi_bytes 300))
      = .ok (300, ⟨[], 8 * (write_vbi_bytes 300).length,
          (bytesToBits (write_vbi_bytes 300)).length⟩)) ∧
    ((write_vbi_bytes 300).length = 2) ∧
    (5 ≤ (write_vbi_bytes 268435456).length) ∧
    (Decoder.read_variable_byte_integer
        (BitReader.new [128, 128, 128, 128, 1])
      = .err (.VariableByteInteger (.ExceededMaxValue
          (128 * 128 * 128 * 128) (128 * 128 * 128)))) := by
  refine ⟨C2_variable_byte_integer_codec.1 300 (by norm_num), ?_, ?_, ?_⟩
  · have h := C2_variable_byte_integer_codec.2.1 300 (by norm_num)
    rw [h]
    norm_num
  · exact C2_variable_byte_integer_codec.2.2.2.1 268435456 (by norm_num)
  · refine C2_variable_byte_integer_codec.2.2.2.2 [128, 128, 128, 128, 1]
      268435456 ?_ (by norm_num)
    rfl

/-! ## Fixed-header error-classification facts (claims C9 and C10) -/

/-- The spec notion of the peer having closed the connection, as the
error kinds of a failed first read that mean the remote end is gone:
clean end-of-file or an aborted, refused or reset connection. -/
def peer_closed_kind : IOErrorKind → Bool
  | .UnexpectedEof => true
  | .ConnectionAborted => true
  | .ConnectionRefused => true
  | .ConnectionReset => true
  | _ => false

theorem read_packet_type_err_not_conn (r : BitReader) (e : DecodeError)
    (h : FixedHeaderDecoder.read_packet_type r = .err e) :
    e ≠ .PacketType .ConnectionError := by
  unfold FixedHeaderDecoder.read_packet_type at h
  unfold Decoder.read_u8 at h
  rw [if_neg (by omega)] at h
  unfold BitReader.readBits at h
  by_cases hlen : r.bits.length < 4
  · rw [if_pos hlen] at h
    simp only at h
    injection h with h2
    rw [← h2]
    simp
  · rw [if_neg hlen] at h
    simp only at h
    rcases hft : ControlPacketType.from_u8 (bitsToNat (r.bits.take 4)) with
      _ | t
    · rw [hft] at h
      injection h with h2
      rw [← h2]
      simp
    · rw [hft] at h
      cases h

theorem read_control_flags_err_shape (r : BitReader) (e : DecodeError)
    (h : FixedHeaderDecoder.read_control_flags r = .err e) :
    ∃ c, e = .ControlFlags c := by
  unfold FixedHeaderDecoder.read_control_flags at h
  rcases hb : Decoder.read_booleans 4 r with e2 | ⟨flags, r2⟩
  · rw [hb] at h
    injection h with h2
    exact ⟨e2, h2.symm⟩
  · rw [hb] at h
    cases h

theorem read_remaining_length_err_shape (r : BitReader) (e : DecodeError)
    (h : FixedHeaderDecoder.read_remaining_length r = .err e) :
    ∃ c, e = .RemainingLength c := by
  unfold FixedHeaderDecoder.read_remaining_length at h
  rcases hv : Decoder.read_variable_byte_integer r with ⟨n, r2⟩ | e2 | _
  · rw [hv] at h
    cases h
  · rw [hv] at h
    injection h with h2
    exact ⟨e2.cause, h2.symm⟩
  · rw [hv] at h
    cases h

/-- The pure fixed-header decoder never produces the
PacketType/ConnectionError pair: that pair is reserved for a failed
first byte on the stream. -/
theorem fixed_decode_not_pt_conn (r : BitReader) :
    FixedHeaderDecoder.decode r ≠ .err (.PacketType .ConnectionError) := by
  intro h
  unfold FixedHeaderDecoder.decode at h
  rcases hpt : FixedHeaderDecoder.read_packet_type r with ⟨pt, r1⟩ | e | _
  rotate_left
  · rw [hpt] at h
    simp only at h
    injection h with h2
    exact read_packet_type_err_not_conn r e hpt h2
  · rw [hpt] at h
    cases h
  · rw [hpt] at h
    simp only at h
    have hrest : ∀ (r2 : BitReader),
        (match FixedHeaderDecoder.read_remaining_length r2 with
          | .err e => (.err e : Res (Nat × BitReader))
          | .panicked => .panicked
          | .ok (remaining_length, r5) => .ok (remaining_length, r5))
          = FixedHeaderDecoder.read_remaining_length r2 := by
      intro r2
      rcases hrl : FixedHeaderDecoder.read_remaining_length r2 with
        ⟨n, r3⟩ | e2 | _ <;> simp
    cases pt
    case PUBLISH =>
      rcases hdb : Decoder.read_bool r1 with e2 | ⟨dup, r2⟩
      · rw [hdb] at h
        simp only at h
        cases h
      · rw [hdb] at h
        simp only at h
        rcases hq : Decoder.read_u8 2 r2 with e2 | ⟨qraw, r3⟩
        · rw [hq] at h
          simp only at h
          cases h
        · rw [hq] at h
          simp only at h
          rcases hql : QoSLevel.from_u8 qraw with _ | q
          · rw [hql] at h
            cases h
          · rw [hql] at h
            simp only at h
            rcases hrt : Decoder.read_bool r3 with e2 | ⟨ret, r4⟩
            · rw [hrt] at h
              simp only at h
              cases h
            · rw [hrt] at h
              simp only at h
              rcases hrl : FixedHeaderDecoder.read_remaining_length r4 with
                ⟨n, r5⟩ | e2 | _
              · rw [hrl] at h
                cases h
              · rw [hrl] at h
                injection h with h2
                obtain ⟨c, hc⟩ := read_remaining_length_err_shape r4 e2 hrl
                rw [hc] at h2
                cases h2
              · rw [hrl] at h
                cases h
    all_goals {
      rcases hcf : FixedHeaderDecoder.read_control_flags r1 with
        ⟨flags, r2⟩ | e2 | _
      · rw [hcf] at h
        simp only at h
        rcases hrl : FixedHeaderDecoder.read_remaining_length r2 with
          ⟨n, r3⟩ | e2 | _
        · rw [hrl] at h
          cases h
        · rw [hrl] at h
          injection h with h2
          obtain ⟨c, hc⟩ := read_remaining_length_err_shape r2 e2 hrl
          rw [hc] at h2
          cases h2
        · rw [hrl] at h
          cases h
      · rw [hcf] at h
        injection h with h2
        obtain ⟨c, hc⟩ := read_control_flags_err_shape r1 e2 hcf
        rw [hc] at h2
        cases h2
      · rw [hcf] at h
        cases h
    }

/-- C9: decoding a fixed header from a stream yields
PacketType/ConnectionError exactly when the first byte cannot be read
because the peer closed the connection, and PacketType/IOError for any
other failure of that first read; so the normal end-of-connection is
distinguishable from malformed input. -/
theorem C9_first_byte_error_classification :
    (∀ s : ByteStream,
      FixedHeaderDecoder.decode_from_stream s
          = .err (.PacketType .ConnectionError)
        ↔ (s.bytes = [] ∧ peer_closed_kind s.fail = true)) ∧
    (∀ k : IOErrorKind,
      FixedHeaderDecoder.decode_from_stream ⟨[], k⟩
        = .err (.PacketType
            (if peer_closed_kind k then .ConnectionError else .IOError))) := by
  constructor
  · intro s
    obtain ⟨bytes, fail⟩ := s
    rcases bytes with _ | ⟨b, rest⟩
    · cases fail <;> simp [FixedHeaderDecoder.decode_from_stream,
        ByteStream.read_u8, peer_closed_kind]
    · simp only [show (b :: rest : List Nat) = [] ↔ False from by simp,
        false_and, iff_false]
      intro h
      unfold FixedHeaderDecoder.decode_from_stream at h
      rw [show ByteStream.read_u8 ⟨b :: rest, fail⟩
          = .ok (b % 256, ⟨rest, fail⟩) from rfl] at h
      simp only at h
      rcases hbuf : FixedHeaderDecoder.read_variable_byte_integer_as_buf
          ⟨rest, fail⟩ with ⟨buf, s2⟩ | e | _
      · rw [hbuf] at h
        simp only at h
        rcases hd : FixedHeaderDecoder.decode
            (BitReader.new (b % 256 :: buf)) with ⟨fh, r2⟩ | e | _
        · rw [hd] at h
          cases h
        · rw [hd] at h
          injection h with h2
          rw [h2] at hd
          exact fixed_decode_not_pt_conn _ hd
        · rw [hd] at h
          cases h
      · rw [hbuf] at h
        injection h with h2
        simp at h2
      · rw [hbuf] at h
        cases h
  · intro k
    cases k <;> rfl

/-- C9 witness: the classification evaluated on an empty stream ending
in each of a reset and a permission failure, and on a one-byte
stream. -/
theorem C9_first_byte_error_classification_witness :
    (FixedHeaderDecoder.decode_from_stream ⟨[], .ConnectionReset⟩
        = .err (.PacketType .ConnectionError)
      ↔ (([] : List Nat) = [] ∧ peer_closed_kind .ConnectionReset = true)) ∧
    (FixedHeaderDecoder.decode_from_stream ⟨[], .PermissionDenied⟩
      = .err (.PacketType
          (if peer_closed_kind .PermissionDenied then .ConnectionError
            else .IOError))) :=
  ⟨C9_first_byte_error_classification.1 ⟨[], .ConnectionReset⟩,
    C9_first_byte_error_classification.2 .PermissionDenied⟩

theorem decode_publish_qos_invalid (r r1 r2 r3 : BitReader) (dup : Bool)
    (qraw : Nat)
    (hpt : FixedHeaderDecoder.read_packet_type r = .ok (.PUBLISH, r1))
    (hdb : Decoder.read_bool r1 = .ok (dup, r2))
    (hq8 : Decoder.read_u8 2 r2 = .ok (qraw, r3))
    (hql : QoSLevel.from_u8 qraw = none) :
    FixedHeaderDecoder.decode r = .err (.QoSLevel .InvalidData) := by
  unfold FixedHeaderDecoder.decode
  simp only [hpt, hdb, hq8, hql]

/-- C10: a PUBLISH first byte whose two qos bits hold the reserved
value 3 makes the fixed-header decoder return the QoSLevel/InvalidData
error, and conversely every successfully decoded PUBLISH fixed header
carries one of the three defined qos levels. -/
theorem C10_reserved_qos_rejected :
    (∀ (b : Nat) (rest : List Nat), b / 16 = 3 → b / 2 % 4 = 3 →
      FixedHeaderDecoder.decode (BitReader.new (b :: rest))
        = .err (.QoSLevel .InvalidData)) ∧
    (∀ (r r2 : BitReader) (fh : FixedHeader),
      FixedHeaderDecoder.decode r = .ok (fh, r2) →
      fh.packet_type = .PUBLISH →
      fh.qos_level = some .AtMostOnce ∨ fh.qos_level = some .AtLeastOnce ∨
        fh.qos_level = some .ExactlyOnce) := by
  constructor
  · intro b rest hhi hqos
    have hsplit8 : natToBits 8 b = natToBits 4 (b / 16) ++ natToBits 4 b := by
      have h := natToBits_split 4 4 b
      norm_num at h
      exact h
    have hsplit4 : natToBits 4 b = natToBits 1 (b / 8) ++ natToBits 3 b := by
      have h := natToBits_split 1 3 b
      norm_num at h
      exact h
    have hsplit3 : natToBits 3 b = natToBits 2 (b / 2) ++ natToBits 1 b := by
      have h := natToBits_split 2 1 b
      norm_num at h
      exact h
    have hnew : BitReader.new (b :: rest)
        = ⟨natToBits 4 (b / 16) ++ (natToBits 4 b ++ bytesToBits rest), 0,
          (bytesToBits (b :: rest)).length⟩ := by
      simp only [BitReader.new, bytesToBits_cons, hsplit8, List.append_assoc]
    rw [hnew]
    generalize (bytesToBits (b :: rest)).length = L
    have hpt : FixedHeaderDecoder.read_packet_type
        ⟨natToBits 4 (b / 16) ++ (natToBits 4 b ++ bytesToBits rest), 0, L⟩
          = .ok (.PUBLISH, ⟨natToBits 4 b ++ bytesToBits rest, 4, L⟩) := by
      simp only [FixedHeaderDecoder.read_packet_type, Decoder.read_u8]
      rw [if_neg (by omega)]
      rw [readBits_exact 4 _ _ _ _ (natToBits_length 4 _)]
      rw [bitsToNat_natToBits, hhi]
      norm_num
      rfl
    have hdb : Decoder.read_bool ⟨natToBits 4 b ++ bytesToBits rest, 4, L⟩
        = .ok (b / 8 % 2 == 1,
          ⟨natToBits 3 b ++ bytesToBits rest, 5, L⟩) := by
      simp only [Decoder.read_bool]
      rw [show (⟨natToBits 4 b ++ bytesToBits rest, 4, L⟩ : BitReader)
          = ⟨natToBits 1 (b / 8) ++ (natToBits 3 b ++ bytesToBits rest), 4, L⟩
        from by rw [hsplit4, List.append_assoc]]
      rw [readBits_exact 1 _ _ _ _ (natToBits_length 1 _)]
      rw [bitsToNat_natToBits]
      norm_num
    have hq8 : Decoder.read_u8 2 ⟨natToBits 3 b ++ bytesToBits rest, 5, L⟩
        = .ok (3, ⟨natToBits 1 b ++ bytesToBits rest, 7, L⟩) := by
      simp only [Decoder.read_u8]
      rw [if_neg (by omega)]
      rw [show (⟨natToBits 3 b ++ bytesToBits rest, 5, L⟩ : BitReader)
          = ⟨natToBits 2 (b / 2) ++ (natToBits 1 b ++ bytesToBits rest), 5, L⟩
        from by rw [hsplit3, List.append_assoc]]
      rw [readBits_exact 2 _ _ _ _ (natToBits_length 2 _)]
      rw [bitsToNat_natToBits]
      rw [show b / 2 % 2 ^ 2 = 3 from by norm_num [hqos]]
    exact decode_publish_qos_invalid _ _ _ _ _ 3 hpt hdb hq8 rfl
  · intro r r2 fh h hpub
    unfold FixedHeaderDecoder.decode at h
    rcases hp : FixedHeaderDecoder.read_packet_type r with ⟨pt, r1⟩ | e | _
    rotate_left
    · rw [hp] at h
      cases h
    · rw [hp] at h
      cases h
    · rw [hp] at h
      simp only at h
      cases pt
      case PUBLISH =>
        rcases hdb : Decoder.read_bool r1 with e | ⟨dup, ra⟩
        · rw [hdb] at h
          cases h
        · rw [hdb] at h
          simp only at h
          rcases hq8 : Decoder.read_u8 2 ra with e | ⟨qraw, rb⟩
          · rw [hq8] at h
            cases h
          · rw [hq8] at h
            simp only at h
            rcases hql : QoSLevel.from_u8 qraw with _ | q
            · rw [hql] at h
              cases h
            · rw [hql] at h
              simp only at h
              rcases hrt : Decoder.read_bool rb with e | ⟨ret, rc⟩
              · rw [hrt] at h
                cases h
              · rw [hrt] at h
                simp only at h
                rcases hrl : FixedHeaderDecoder.read_remaining_length rc with
                  ⟨rl, rd⟩ | e | _
                · rw [hrl] at h
                  simp only [Res.ok.injEq, Prod.mk.injEq] at h
                  obtain ⟨hfh, -⟩ := h
                  rw [← hfh]
                  cases q <;> simp [FixedHeader.from_publish]
                · rw [hrl] at h
                  cases h
                · rw [hrl] at h
                  cases h
      all_goals {
        rcases hcf : FixedHeaderDecoder.read_control_flags r1 with
          ⟨flags, ra⟩ | e | _
        · rw [hcf] at h
          simp only at h
          rcases hrl : FixedHeaderDecoder.read_remaining_length ra with
            ⟨rl, rb⟩ | e | _
          · rw [hrl] at h
            simp only [Res.ok.injEq, Prod.mk.injEq] at h
            obtain ⟨hfh, -⟩ := h
            rw [← hfh] at hpub
            simp [FixedHeader.new] at hpub
          · rw [hrl] at h
            cases h
          · rw [hrl] at h
            cases h
        · rw [hcf] at h
          cases h
        · rw [hcf] at h
          cases h
      }

/-- C10 witness: the first byte 0x36 carries packet type 3 (PUBLISH)
and qos bits 11, and is rejected; decoding the well-formed PUBLISH
packet 0x30 0x00 succeeds with qos AtMostOnce. -/
theorem C10_reserved_qos_rejected_witness :
    FixedHeaderDecoder.decode (BitReader.new [54])
        = .err (.QoSLevel .InvalidData) ∧
    ((FixedHeader.from_publish false .AtMostOnce false 0).qos_level
        = some .AtMostOnce ∨
      (FixedHeader.from_publish false .AtMostOnce false 0).qos_level
        = some .AtLeastOnce ∨
      (FixedHeader.from_publish false .AtMostOnce false 0).qos_level
        = some .ExactlyOnce) :=
  ⟨C10_reserved_qos_rejected.1 54 [] (by norm_num) (by norm_num),
    C10_reserved_qos_rejected.2 (BitReader.new [48, 0]) ⟨[], 16, 16⟩
      (FixedHeader.from_publish false .AtMostOnce false 0) (by rfl) rfl⟩

/-! ## The codec round-trip property (claim C1)

The comparison notion follows the spec words: decoding the encoding
gives the packet back modulo the fields the encoder synthesizes, the
properties list coming back empty and the remaining length recomputed
from the encoded body. -/

/-- The original fixed header with the remaining length the decoder
recomputed. -/
def FixedHeader.with_remaining_length (fh : FixedHeader) (rl : Nat) :
    FixedHeader :=
  { fh with remaining_length := rl }

/-- The original variable header with the properties list scrubbed to
empty, as the spec allows the round-trip to lose it. -/
def VariableHeader.scrub_properties (vh : VariableHeader) : VariableHeader :=
  { vh with properties := [] }

/-- The packet up to the synthesized fields: remaining length
recomputed, properties empty. -/
def ControlPacket.scrub (packet : ControlPacket) (rl : Nat) : ControlPacket :=
  ⟨packet.fixed_header.with_remaining_length rl,
    packet.variable_header.map VariableHeader.scrub_properties,
    packet.payload⟩

/-- The spec round-trip: encoding succeeds and decoding the bytes
yields the packet modulo the synthesized fields. -/
def decodes_back_to (packet : ControlPacket) : Prop :=
  ∃ bytes, MqttEncoderImpl.encode_packet packet = some bytes ∧
    ∃ rl, MqttDecoder.decode_packet ⟨bytes, .UnexpectedEof⟩
      = .ok (packet.scrub rl)

theorem encode_packet_vh_only (fh : FixedHeader) (vh : VariableHeader)
    (vb fb : List Nat)
    (hv : VariableHeaderEncoder.encode fh.packet_type vh = some vb)
    (hf : FixedHeaderEncoder.encode fh vb.length = some fb) :
    MqttEncoderImpl.encode_packet ⟨fh, some vh, none⟩
      = some (fb ++ vb ++ []) := by
  unfold MqttEncoderImpl.encode_packet
  simp only [hv, hf, List.length_nil, Nat.zero_add]

theorem encode_packet_bare (fh : FixedHeader) (fb : List Nat)
    (hf : FixedHeaderEncoder.encode fh 0 = some fb) :
    MqttEncoderImpl.encode_packet ⟨fh, none, none⟩
      = some (fb ++ [] ++ []) := by
  unfold MqttEncoderImpl.encode_packet
  simp only [hf, List.length_nil, Nat.zero_add]

theorem decode_packet_eq (s : ByteStream) (fh : FixedHeader)
    (s2 : ByteStream) (vh : Option VariableHeader) (pl : Option Payload)
    (r2 r3 : BitReader)
    (h1 : FixedHeaderDecoder.decode_from_stream s = .ok (fh, s2))
    (hrl : 0 < fh.remaining_length)
    (h2 : VariableHeaderDecoder.decode_with_header fh
        (BitReader.new (s2.bytes.take fh.remaining_length)) = .ok (vh, r2))
    (h3 : PayloadDecoder.decode fh.packet_type vh r2 = .ok (pl, r3)) :
    MqttDecoder.decode_packet s = .ok (ControlPacket.new fh vh pl) := by
  unfold MqttDecoder.decode_packet
  simp only [h1]
  rw [if_pos hrl]
  simp only [h2, h3]

theorem decode_packet_eq_bare (s : ByteStream) (fh : FixedHeader)
    (s2 : ByteStream)
    (h1 : FixedHeaderDecoder.decode_from_stream s = .ok (fh, s2))
    (hrl : fh.remaining_length = 0) :
    MqttDecoder.decode_packet s = .ok (ControlPacket.new fh none none) := by
  unfold MqttDecoder.decode_packet
  simp only [h1]
  rw [hrl]
  rw [if_neg (by omega)]

/-- C1 counterexample: the DISCONNECT packet built by the public
constructor does not decode back: its variable header is never encoded
(the encoder writes an empty variable header for DISCONNECT), so the
decoded packet has no variable header at all, not even a scrubbed
one. -/
theorem C1_roundtrip_counterexample :
    ¬ decodes_back_to (ControlPacket.disconnect .NormalDisconnection) := by
  intro h
  obtain ⟨bytes, henc, rl, hdec⟩ := h
  have h0 : write_vbi_bytes 0 = [0] := write_vbi_bytes_last 0 (by norm_num)
  have hvheD : VariableHeaderEncoder.encode .DISCONNECT
      (VariableHeader.from_disconnect .NormalDisconnection [])
        = some [] := rfl
  have hfheD : FixedHeaderEncoder.encode
      (FixedHeader.new .DISCONNECT [false, false, false, false] 0) 0
        = some [224, 0] := by
    rw [show FixedHeaderEncoder.encode
        (FixedHeader.new .DISCONNECT [false, false, false, false] 0) 0
          = some (224 :: write_vbi_bytes 0) from rfl, h0]
  have henc2 : MqttEncoderImpl.encode_packet
      (ControlPacket.disconnect .NormalDisconnection) = some [224, 0] := by
    exact encode_packet_vh_only
      (FixedHeader.new .DISCONNECT [false, false, false, false] 0)
      (VariableHeader.from_disconnect .NormalDisconnection []) [] [224, 0]
      hvheD hfheD
  rw [henc2] at henc
  injection henc with hb
  subst hb
  have hdec2 : MqttDecoder.decode_packet ⟨[224, 0], .UnexpectedEof⟩
      = .ok (ControlPacket.new
        (FixedHeader.new .DISCONNECT [false, false, false, false] 0)
        none none) := rfl
  rw [hdec2] at hdec
  injection hdec with hp
  have hvh : (ControlPacket.new
      (FixedHeader.new .DISCONNECT [false, false, false, false] 0)
      none none).variable_header
        = ((ControlPacket.disconnect .NormalDisconnection).scrub
          rl).variable_header := by
    rw [hp]
  simp [ControlPacket.new, ControlPacket.scrub, ControlPacket.disconnect,
    VariableHeader.scrub_properties, FixedHeader.with_remaining_length] at hvh

/-- C1 amended: the round-trip decode(encode(P)) = P modulo synthesized
fields holds for the acknowledgment constructors puback, pubrec and
pubcomp carrying a packet identifier, and for pingresp; the DISCONNECT
counterexample shows the claimed all-constructor form fails (CONNECT,
SUBSCRIBE, UNSUBSCRIBE and DISCONNECT lose their variable headers,
CONNACK, SUBACK and UNSUBACK are not decoded back, PUBLISH flag bits
are written in the reverse order the decoder reads, and pubrel's
control flags are written at the wrong positions). -/
theorem C1_roundtrip_ack_packets (pid : Nat) (hpid : pid < 65536) :
    decodes_back_to (ControlPacket.puback (some pid)) ∧
    decodes_back_to (ControlPacket.pubrec (some pid)) ∧
    decodes_back_to (ControlPacket.pubcomp (some pid)) ∧
    decodes_back_to ControlPacket.pingresp := by
  have h0 : write_vbi_bytes 0 = [0] := write_vbi_bytes_last 0 (by norm_num)
  have h4 : write_vbi_bytes 4 = [4] := write_vbi_bytes_last 4 (by norm_num)
  have hprops : PropertyEncoder.encode ([] : List Property) = .ok [0] := by
    simp only [PropertyEncoder.encode, Encoder.write_variable_byte_integer, h0]
  have hu16 : Decoder.read_u16 16
      (BitReader.new [pid / 256 % 256, pid % 256, 0, 0])
        = .ok (pid, ⟨bytesToBits [0, 0], 16, 32⟩) := by
    rw [show BitReader.new [pid / 256 % 256, pid % 256, 0, 0]
        = ⟨bytesToBits [pid / 256 % 256, pid % 256, 0, 0], 0, 32⟩ from rfl]
    rw [read_u16_bytes]
    rw [show pid / 256 % 256 % 256 * 256 + pid % 256 % 256 = pid from by
      omega]
  have hpidread : VariableHeaderDecoder.read_packet_identifier
      (BitReader.new [pid / 256 % 256, pid % 256, 0, 0])
        = .ok (pid, ⟨bytesToBits [0, 0], 16, 32⟩) := by
    unfold VariableHeaderDecoder.read_packet_identifier
    rw [hu16]
  refine ⟨?_, ?_, ?_, ?_⟩
  · refine ⟨[64, 4, pid / 256 % 256, pid % 256, 0, 0], ?_, 4, ?_⟩
    · have hvheA : VariableHeaderEncoder.encode .PUBACK
          (VariableHeader.from_pub_ack_rel_comp (some pid) (some .Success) [])
            = some ([pid / 256 % 256, pid % 256] ++ [0] ++ [0]) := by
        simp only [VariableHeaderEncoder.encode,
          VariableHeader.from_pub_ack_rel_comp, hprops,
          VariableHeaderEncoder.encode_reason_code, ReasonCode.as_u8, put_u16]
      have hfheA : FixedHeaderEncoder.encode
          (FixedHeader.new .PUBACK [false, false, false, false] 0) 4
            = some [64, 4] := by
        rw [show FixedHeaderEncoder.encode
            (FixedHeader.new .PUBACK [false, false, false, false] 0) 4
              = some (64 :: write_vbi_bytes 4) from rfl, h4]
      exact encode_packet_vh_only
        (FixedHeader.new .PUBACK [false, false, false, false] 0)
        (VariableHeader.from_pub_ack_rel_comp (some pid) (some .Success) [])
        ([pid / 256 % 256, pid % 256] ++ [0] ++ [0]) [64, 4] hvheA hfheA
    · have hfdsA : FixedHeaderDecoder.decode_from_stream
          ⟨[64, 4, pid / 256 % 256, pid % 256, 0, 0], .UnexpectedEof⟩
            = .ok (FixedHeader.new .PUBACK [false, false, false, false] 4,
              ⟨[pid / 256 % 256, pid % 256, 0, 0], .UnexpectedEof⟩) := rfl
      have hvhdA : VariableHeaderDecoder.decode_with_header
          (FixedHeader.new .PUBACK [false, false, false, false] 4)
          (BitReader.new [pid / 256 % 256, pid % 256, 0, 0])
            = .ok (some (VariableHeader.from_pub_ack_rel_comp (some pid)
              (some .Success) []), ⟨bytesToBits [0], 24, 32⟩) := by
        simp only [VariableHeaderDecoder.decode_with_header, FixedHeader.new,
          hpidread]
        rfl
      exact decode_packet_eq _ _ _ _ _ _ _ hfdsA (Nat.succ_pos 3) hvhdA rfl
  · refine ⟨[80, 4, pid / 256 % 256, pid % 256, 0, 0], ?_, 4, ?_⟩
    · have hvheB : VariableHeaderEncoder.encode .PUBREC
          (VariableHeader.from_pub_ack_rel_comp (some pid) (some .Success) [])
            = some ([pid / 256 % 256, pid % 256] ++ [0] ++ [0]) := by
        simp only [VariableHeaderEncoder.encode,
          VariableHeader.from_pub_ack_rel_comp, hprops,
          VariableHeaderEncoder.encode_reason_code, ReasonCode.as_u8, put_u16]
      have hfheB : FixedHeaderEncoder.encode
          (FixedHeader.new .PUBREC [false, false, false, false] 0) 4
            = some [80, 4] := by
        rw [show FixedHeaderEncoder.encode
            (FixedHeader.new .PUBREC [false, false, false, false] 0) 4
              = some (80 :: write_vbi_bytes 4) from rfl, h4]
      exact encode_packet_vh_only
        (FixedHeader.new .PUBREC [false, false, false, false] 0)
        (VariableHeader.from_pub_ack_rel_comp (some pid) (some .Success) [])
        ([pid / 256 % 256, pid % 256] ++ [0] ++ [0]) [80, 4] hvheB hfheB
    · have hfdsB : FixedHeaderDecoder.decode_from_stream
          ⟨[80, 4, pid / 256 % 256, pid % 256, 0, 0], .UnexpectedEof⟩
            = .ok (FixedHeader.new .PUBREC [false, false, false, false] 4,
              ⟨[pid / 256 % 256, pid % 256, 0, 0], .UnexpectedEof⟩) := rfl
      have hvhdB : VariableHeaderDecoder.decode_with_header
          (FixedHeader.new .PUBREC [false, false, false, false] 4)
          (BitReader.new [pid / 256 % 256, pid % 256, 0, 0])
            = .ok (some (VariableHeader.from_pub_ack_rel_comp (some pid)
              (some .Success) []), ⟨bytesToBits [0], 24, 32⟩) := by
        simp only [VariableHeaderDecoder.decode_with_header, FixedHeader.new,
          hpidread]
        rfl
      exact decode_packet_eq _ _ _ _ _ _ _ hfdsB (Nat.succ_pos 3) hvhdB rfl
  · refine ⟨[112, 4, pid / 256 % 256, pid % 256, 0, 0], ?_, 4, ?_⟩
    · have hvheC : VariableHeaderEncoder.encode .PUBCOMP
          (VariableHeader.from_pub_ack_rel_comp (some pid) (some .Success) [])
            = some ([pid / 256 % 256, pid % 256] ++ [0] ++ [0]) := by
        simp only [VariableHeaderEncoder.encode,
          VariableHeader.from_pub_ack_rel_comp, hprops,
          VariableHeaderEncoder.encode_reason_code, ReasonCode.as_u8, put_u16]
      have hfheC : FixedHeaderEncoder.encode
          (FixedHeader.new .PUBCOMP [false, false, false, false] 0) 4
            = some [112, 4] := by
        rw [show FixedHeaderEncoder.encode
            (FixedHeader.new .PUBCOMP [false, false, false, false] 0) 4
              = some (112 :: write_vbi_bytes 4) from rfl, h4]
      exact encode_packet_vh_only
        (FixedHeader.new .PUBCOMP [false, false, false, false] 0)
        (VariableHeader.from_pub_ack_rel_comp (some pid) (some .Success) [])
        ([pid / 256 % 256, pid % 256] ++ [0] ++ [0]) [112, 4] hvheC hfheC
    · have hfdsC : FixedHeaderDecoder.decode_from_stream
          ⟨[112, 4, pid / 256 % 256, pid % 256, 0, 0], .UnexpectedEof⟩
            = .ok (FixedHeader.new .PUBCOMP [false, false, false, false] 4,
              ⟨[pid / 256 % 256, pid % 256, 0, 0], .UnexpectedEof⟩) := rfl
      have hvhdC : VariableHeaderDecoder.decode_with_header
          (FixedHeader.new .PUBCOMP [false, false, false, false] 4)
          (BitReader.new [pid / 256 % 256, pid % 256, 0, 0])
            = .ok (some (VariableHeader.from_pub_ack_rel_comp (some pid)
              (some .Success) []), ⟨bytesToBits [0], 24, 32⟩) := by
        simp only [VariableHeaderDecoder.decode_with_header, FixedHeader.new,
          hpidread]
        rfl
      exact decode_packet_eq _ _ _ _ _ _ _ hfdsC (Nat.succ_pos 3) hvhdC rfl
  · refine ⟨[208, 0], ?_, 0, ?_⟩
    · have hfheP : FixedHeaderEncoder.encode
          (FixedHeader.new .PINGRESP [false, false, false, false] 0) 0
            = some [208, 0] := by
        rw [show FixedHeaderEncoder.encode
            (FixedHeader.new .PINGRESP [false, false, false, false] 0) 0
              = some (208 :: write_vbi_bytes 0) from rfl, h0]
      exact encode_packet_bare
        (FixedHeader.new .PINGRESP [false, false, false, false] 0) [208, 0]
        hfheP
    · have hfdsP : FixedHeaderDecoder.decode_from_stream
          ⟨[208, 0], .UnexpectedEof⟩
            = .ok (FixedHeader.new .PINGRESP [false, false, false, false] 0,
              ⟨[], .UnexpectedEof⟩) := rfl
      exact decode_packet_eq_bare _ _ _ hfdsP rfl

/-- C1 witness: the round-trip evaluated at packet identifier 1. -/
theorem C1_roundtrip_ack_packets_witness :
    decodes_back_to (ControlPacket.puback (some 1)) ∧
    decodes_back_to (ControlPacket.pubrec (some 1)) ∧
    decodes_back_to (ControlPacket.pubcomp (some 1)) ∧
    decodes_back_to ControlPacket.pingresp :=
  C1_roundtrip_ack_packets 1 (by norm_num)

end Patina
